import Mathlib

/-!
# FlunderDLL: handle search, snapshot query and orchestration

Shallow embedding of `src/L2Market.Injector/FlunderDLL.cpp`.

* Kernel handles (`HANDLE`), process identifiers (`DWORD`), access masks
  (`ACCESS_MASK`) and buffer sizes (`ULONG`) are natural numbers; the code only
  compares and masks them, it never does arithmetic on them.
* `NTSTATUS` is a signed 32-bit integer, modelled as `Int`.
* Every call that leaves the translation unit (Win32, ntdll, CRT heap, the file
  stream, the external `ManualMapDll`) is appended to a trace of `Call` events
  together with the answer it got.  The answers themselves are inputs of the
  model, so a statement quantified over them holds for every behaviour of the
  operating system.
* While one record of the handle table is examined the loop body calls
  `OpenProcess`, `DuplicateHandle` and `GetProcessId` at most once each, so the
  behaviour of the operating system during one scan is given by one `Answers`
  value per record; the table returned by the query carries them alongside the
  records.
-/

namespace FlunderDLL

/-! ## Constants of the Windows SDK used by the source -/

/-- The null handle / null pointer. -/
def NULL : Nat := 0

/-- Pseudo handle `(HANDLE)-1` (64-bit build). -/
def INVALID_HANDLE_VALUE : Nat := 2 ^ 64 - 1

/-- Value of `PROCESS_ALL_ACCESS` in winnt.h:
`STANDARD_RIGHTS_REQUIRED | SYNCHRONIZE | 0xFFFF`. -/
def PROCESS_ALL_ACCESS : Nat := 0x1FFFFF

/-- Value of `PROCESS_QUERY_INFORMATION` in winnt.h. -/
def PROCESS_QUERY_INFORMATION : Nat := 0x0400

/-- Value of `PROCESS_DUP_HANDLE` in winnt.h. -/
def PROCESS_DUP_HANDLE : Nat := 0x0040

/-- Value of `INVALID_FILE_ATTRIBUTES` in fileapi.h. -/
def INVALID_FILE_ATTRIBUTES : Nat := 0xFFFFFFFF

/-- Information class number, `#define SystemHandleInformation 16`. -/
def SystemHandleInformation : Nat := 16

/-! ## Data model -/

/-- One entry of the system handle table, `struct _SYSTEM_HANDLE`. -/
structure SYSTEM_HANDLE where
  ProcessId : Nat
  ObjectTypeNumber : Nat
  Flags : Nat
  Handle : Nat
  Object : Nat
  GrantedAccess : Nat
deriving DecidableEq

/-- What the operating system answers to the calls made while one record is
examined: the value returned by `OpenProcess`, the `BOOL` returned by
`DuplicateHandle`, the handle it stores in its out-parameter, and the value
returned by `GetProcessId` on that handle. -/
structure Answers where
  OpenProcess : Nat
  DuplicateHandle : Bool
  duplicatedHandle : Nat
  GetProcessId : Nat
deriving DecidableEq

/-- A record of the table together with the answers of the operating system
for it. -/
abbrev Examined := SYSTEM_HANDLE × Answers

/-- One entry of a process snapshot (`PROCESSENTRY32W`); the name is the
sequence of `wchar_t` code units before the terminator. -/
structure PROCESSENTRY32W where
  th32ProcessID : Nat
  th32ParentProcessID : Nat
  szExeFile : List Nat
deriving DecidableEq

/-- Calls leaving the translation unit, with the answers they got.  The two
`search` events are markers logged when `InjectDLL` gets the result of
`FindPrivilegedHandleToProcess` (`false`) or `FindPrivilegedHandleFromParent`
(`true`). -/
inductive Call where
  | GetModuleHandleW (ret : Nat)
  | GetProcAddress (ret : Nat)
  | GetLastError
  | GetFileAttributesA (ret : Nat)
  | GetCurrentProcess
  | OpenProcessToken (ok : Bool) (hToken : Nat)
  | LookupPrivilegeValue (ok : Bool)
  | AdjustTokenPrivileges (hToken : Nat)
  | malloc (size : Nat)
  | free
  | NtQuerySystemInformation (length : Nat) (status : Int)
  | OpenProcess (access : Nat) (pid : Nat) (ret : Nat)
  | DuplicateHandle (hSourceProcess : Nat) (hSource : Nat) (ok : Bool) (dup : Nat)
  | GetProcessId (h : Nat) (ret : Nat)
  | CloseHandle (h : Nat)
  | CreateToolhelp32Snapshot (ret : Nat)
  | Process32FirstW (ok : Bool)
  | Process32NextW (ok : Bool)
  | IsWow64Process (h : Nat) (ok : Bool)
  | search (parentScoped : Bool) (ret : Nat)
  | ifstreamOpen (ok : Bool)
  | ifstreamTellg (pos : Int)
  | ifstreamRead
  | ifstreamClose
  | operatorNew (size : Nat) (ok : Bool)
  | operatorDelete
  | ManualMapDll (hProc : Nat) (size : Nat) (ret : Bool)
deriving DecidableEq

/-! ## The handle ledger: open handles as explicit state -/

/-- A value is a kernel handle when it is neither `NULL` nor
`INVALID_HANDLE_VALUE`; this is the test the source applies to the results of
`OpenProcess` and `DuplicateHandle`. -/
def isHandle (h : Nat) : Bool := h != NULL && h != INVALID_HANDLE_VALUE

/-- The handle a call hands to the caller, if any. -/
def acquired : Call → List Nat
  | .OpenProcessToken ok h => if ok then [h] else []
  | .OpenProcess _ _ h => if isHandle h then [h] else []
  | .DuplicateHandle _ _ ok h => if ok && isHandle h then [h] else []
  | .CreateToolhelp32Snapshot h => if h = INVALID_HANDLE_VALUE then [] else [h]
  | _ => []

/-- Replays a trace on a list of open handles.  A call that hands out a handle
adds it; `CloseHandle h` removes one occurrence of `h` and the replay fails
(`none`) when `h` is not open at that moment. -/
def replay : List Call → List Nat → Option (List Nat)
  | [], held => some held
  | .CloseHandle h :: cs, held => if h ∈ held then replay cs (held.erase h) else none
  | c :: cs, held => replay cs (acquired c ++ held)

/-! ## The two scans of the handle table -/

/-- Local variables of the scan loops: `bestHandle`, `maxAccess` and (direct
search only) `bestOwnerPID`. -/
structure LoopState where
  bestHandle : Nat
  maxAccess : Nat
  bestOwnerPID : Nat
deriving DecidableEq

/-- Body of the `for` loop of `FindPrivilegedHandleToProcess` (lines 163-202):
the new values of the locals and the calls made. -/
def directBody (targetPID : Nat) (s : LoopState) (e : Examined) : LoopState × List Call :=
  let handle := e.1
  let os := e.2
  if handle.GrantedAccess &&& PROCESS_ALL_ACCESS ≠ 0 ∧ handle.ObjectTypeNumber = 7
      ∧ handle.ProcessId ≠ targetPID then
    let processHandle := os.OpenProcess
    let t1 := [Call.OpenProcess (PROCESS_QUERY_INFORMATION ||| PROCESS_DUP_HANDLE)
      handle.ProcessId processHandle]
    if processHandle ≠ NULL ∧ processHandle ≠ INVALID_HANDLE_VALUE then
      let t2 := t1 ++ [Call.GetCurrentProcess,
        Call.DuplicateHandle processHandle handle.Handle os.DuplicateHandle os.duplicatedHandle]
      if os.DuplicateHandle = true then
        let duplicatedHandle := os.duplicatedHandle
        if duplicatedHandle ≠ NULL ∧ duplicatedHandle ≠ INVALID_HANDLE_VALUE then
          let targetProcessID := os.GetProcessId
          let t3 := t2 ++ [Call.GetProcessId duplicatedHandle targetProcessID]
          if targetProcessID = targetPID then
            if handle.GrantedAccess > s.maxAccess then
              (⟨duplicatedHandle, handle.GrantedAccess, handle.ProcessId⟩,
                t3 ++ (if s.bestHandle ≠ NULL then [Call.CloseHandle s.bestHandle] else [])
                  ++ [Call.CloseHandle processHandle])
            else
              (s, t3 ++ [Call.CloseHandle duplicatedHandle, Call.CloseHandle processHandle])
          else
            (s, t3 ++ [Call.CloseHandle duplicatedHandle, Call.CloseHandle processHandle])
        else
          (s, t2 ++ [Call.CloseHandle processHandle])
      else
        (s, t2 ++ [Call.CloseHandle processHandle])
    else
      (s, t1)
  else
    (s, [])

/-- Body of the `for` loop of `FindPrivilegedHandleFromParent` (lines 260-291).
The function has no `bestOwnerPID`; that field is carried along unchanged. -/
def parentBody (targetPID parentPID : Nat) (s : LoopState) (e : Examined) :
    LoopState × List Call :=
  let handle := e.1
  let os := e.2
  if handle.ObjectTypeNumber = 7 ∧ handle.ProcessId = parentPID then
    let ownerProcessHandle := os.OpenProcess
    let t1 := [Call.OpenProcess PROCESS_DUP_HANDLE handle.ProcessId ownerProcessHandle]
    if ownerProcessHandle ≠ NULL ∧ ownerProcessHandle ≠ INVALID_HANDLE_VALUE then
      let t2 := t1 ++ [Call.GetCurrentProcess,
        Call.DuplicateHandle ownerProcessHandle handle.Handle os.DuplicateHandle
          os.duplicatedHandle]
      if os.DuplicateHandle = true then
        let duplicatedHandle := os.duplicatedHandle
        if duplicatedHandle ≠ NULL ∧ duplicatedHandle ≠ INVALID_HANDLE_VALUE then
          let targetProcessID := os.GetProcessId
          let t3 := t2 ++ [Call.GetProcessId duplicatedHandle targetProcessID]
          if targetProcessID = targetPID then
            if handle.GrantedAccess > s.maxAccess then
              (⟨duplicatedHandle, handle.GrantedAccess, s.bestOwnerPID⟩,
                t3 ++ (if s.bestHandle ≠ NULL then [Call.CloseHandle s.bestHandle] else [])
                  ++ [Call.CloseHandle ownerProcessHandle])
            else
              (s, t3 ++ [Call.CloseHandle duplicatedHandle, Call.CloseHandle ownerProcessHandle])
          else
            (s, t3 ++ [Call.CloseHandle duplicatedHandle, Call.CloseHandle ownerProcessHandle])
        else
          (s, t2 ++ [Call.CloseHandle ownerProcessHandle])
      else
        (s, t2 ++ [Call.CloseHandle ownerProcessHandle])
    else
      (s, t1)
  else
    (s, [])

/-- The `for (i = 0; i < HandleCount; i++)` loop: the body is run on the
records in table order, threading the locals and concatenating the calls. -/
def scan (body : LoopState → Examined → LoopState × List Call) :
    List Examined → LoopState → LoopState × List Call
  | [], s => (s, [])
  | e :: es, s =>
    let r1 := body s e
    let r2 := scan body es r1.1
    (r2.1, r1.2 ++ r2.2)

/-! ## The snapshot query -/

/-- Answer of one `NtQuerySystemInformation` call: the status, the value of
`*ReturnLength` after the call (the source passes `&bufferSize`, which holds the
buffer length before the call, so a call that reports nothing answers the length
it was given) and the table written to the buffer. -/
structure QueryAnswer where
  status : Int
  ReturnLength : Nat
  table : List Examined

/-- Behaviour of the query function: the answer may depend on how many calls
were made before, on the information class and on the buffer length. -/
abbrev NtQuerySystemInformationPrototype := Nat → Nat → Nat → QueryAnswer

/-- Result of `QueryHandleInformation`: the snapshot (`none` for `nullptr`), the
number of query calls made so far, and the calls made. -/
structure QueryResult where
  handleInfo : Option (List Examined)
  calls : Nat
  trace : List Call

/-- Model of `QueryHandleInformation` (lines 126-144).  `calls` counts the query
calls made before this one.  The comparison `status == 0xC0000004` is made
after conversion of the `LONG` to `unsigned long`. -/
def QueryHandleInformation (NtQuerySystemInformation : NtQuerySystemInformationPrototype)
    (calls : Nat) : QueryResult :=
  let bufferSize : Nat := 0x1000000
  let a1 := NtQuerySystemInformation calls SystemHandleInformation bufferSize
  let t1 := [Call.malloc bufferSize, Call.NtQuerySystemInformation bufferSize a1.status]
  let bufferSize := a1.ReturnLength
  if a1.status % 2 ^ 32 = 0xC0000004 then
    let a2 := NtQuerySystemInformation (calls + 1) SystemHandleInformation bufferSize
    let t2 := t1 ++ [Call.free, Call.malloc bufferSize,
      Call.NtQuerySystemInformation bufferSize a2.status]
    if a2.status ≠ 0 then
      ⟨none, calls + 2, t2 ++ [Call.free, Call.GetLastError]⟩
    else
      ⟨some a2.table, calls + 2, t2⟩
  else
    if a1.status ≠ 0 then
      ⟨none, calls + 1, t1 ++ [Call.free, Call.GetLastError]⟩
    else
      ⟨some a1.table, calls + 1, t1⟩

/-! ## The two searches -/

/-- Result of a search: the returned handle (`NULL` for none), the number of
query calls made so far, and the calls made. -/
structure SearchResult where
  handle : Nat
  calls : Nat
  trace : List Call

/-- Model of `FindPrivilegedHandleToProcess` (lines 146-214). -/
def FindPrivilegedHandleToProcess (targetPID : Nat)
    (NtQuerySystemInformation : NtQuerySystemInformationPrototype) (calls : Nat) :
    SearchResult :=
  let q := QueryHandleInformation NtQuerySystemInformation calls
  match q.handleInfo with
  | none => ⟨NULL, q.calls, q.trace⟩
  | some handleInfo =>
    let r := scan (directBody targetPID) handleInfo ⟨NULL, 0, 0⟩
    ⟨r.1.bestHandle, q.calls, q.trace ++ r.2 ++ [Call.free]⟩

/-- Answers of the tool-help API for one process snapshot: the handle returned
by `CreateToolhelp32Snapshot` and the entries enumerated by `Process32FirstW` /
`Process32NextW` (`Process32FirstW` fails on an empty enumeration). -/
structure Toolhelp where
  hSnapshot : Nat
  entries : List PROCESSENTRY32W

/-- The `do ... while (Process32NextW(...))` loop of `GetParentProcessId`
(lines 230-235), started on the entry `pe32` with `rest` still to enumerate. -/
def parentWalk (processId : Nat) (pe32 : PROCESSENTRY32W) :
    List PROCESSENTRY32W → Option Nat × List Call
  | [] =>
    if pe32.th32ProcessID = processId then (some pe32.th32ParentProcessID, [])
    else (none, [Call.Process32NextW false])
  | next :: rest =>
    if pe32.th32ProcessID = processId then (some pe32.th32ParentProcessID, [])
    else
      let r := parentWalk processId next rest
      (r.1, Call.Process32NextW true :: r.2)

/-- Model of `GetParentProcessId` (lines 216-239). -/
def GetParentProcessId (th : Toolhelp) (processId : Nat) : Nat × List Call :=
  let t0 := [Call.CreateToolhelp32Snapshot th.hSnapshot]
  if th.hSnapshot = INVALID_HANDLE_VALUE then (0, t0)
  else
    match th.entries with
    | [] => (0, t0 ++ [Call.Process32FirstW false, Call.CloseHandle th.hSnapshot])
    | pe32 :: rest =>
      let r := parentWalk processId pe32 rest
      match r.1 with
      | some parent =>
        (parent, t0 ++ [Call.Process32FirstW true] ++ r.2 ++ [Call.CloseHandle th.hSnapshot])
      | none =>
        (0, t0 ++ [Call.Process32FirstW true] ++ r.2 ++ [Call.CloseHandle th.hSnapshot])

/-- Model of `FindPrivilegedHandleFromParent` (lines 241-296). -/
def FindPrivilegedHandleFromParent (targetPID : Nat)
    (NtQuerySystemInformation : NtQuerySystemInformationPrototype) (calls : Nat)
    (th : Toolhelp) : SearchResult :=
  let p := GetParentProcessId th targetPID
  let parentPID := p.1
  if parentPID = 0 then ⟨NULL, calls, p.2⟩
  else
    let q := QueryHandleInformation NtQuerySystemInformation calls
    match q.handleInfo with
    | none => ⟨NULL, q.calls, p.2 ++ q.trace⟩
    | some handleInfo =>
      let r := scan (parentBody targetPID parentPID) handleInfo ⟨NULL, 0, 0⟩
      ⟨r.1.bestHandle, q.calls, p.2 ++ q.trace ++ r.2 ++ [Call.free]⟩

/-! ## Lookup of a process by name -/

/-- Lower-casing of one `wchar_t` in the "C" locale, as `_wcsicmp` applies it. -/
def towlower (c : Nat) : Nat :=
  if 65 ≤ c ∧ c ≤ 90 then c + 32 else c

/-- Case-insensitive comparison of two wide strings: `0` when they agree after
lower-casing, otherwise the sign of the first difference (the terminator sorts
before every character). -/
def _wcsicmp : List Nat → List Nat → Int
  | [], [] => 0
  | [], _ :: _ => -1
  | _ :: _, [] => 1
  | a :: as, b :: bs =>
    if towlower a = towlower b then _wcsicmp as bs
    else if towlower a < towlower b then -1 else 1

/-- The `while (Process32Next(snapshot, &entry) == TRUE)` loop of
`GetProcessIdByName` (lines 318-323) over the entries still to enumerate: each
round first fetches the next entry and then compares its name. -/
def nameWalk (hSnapshot : Nat) (name : List Nat) : List PROCESSENTRY32W → Nat × List Call
  | [] => (0, [Call.Process32NextW false, Call.CloseHandle hSnapshot])
  | entry :: rest =>
    if _wcsicmp entry.szExeFile name = 0 then
      (entry.th32ProcessID, [Call.Process32NextW true, Call.CloseHandle hSnapshot])
    else
      let r := nameWalk hSnapshot name rest
      (r.1, Call.Process32NextW true :: r.2)

/-- Model of `GetProcessIdByName` (lines 311-328).  `Process32First` succeeds
when the snapshot handle is valid and the enumeration is not empty; the entry
it fetches is overwritten by the first `Process32Next` before any comparison. -/
def GetProcessIdByName (th : Toolhelp) (name : List Nat) : Nat × List Call :=
  let snapshot := th.hSnapshot
  let t0 := [Call.CreateToolhelp32Snapshot snapshot]
  if snapshot = INVALID_HANDLE_VALUE then
    (0, t0 ++ [Call.Process32FirstW false, Call.CloseHandle snapshot])
  else
    match th.entries with
    | [] => (0, t0 ++ [Call.Process32FirstW false, Call.CloseHandle snapshot])
    | _entry :: rest =>
      let r := nameWalk snapshot name rest
      (r.1, t0 ++ [Call.Process32FirstW true] ++ r.2)

/-- Conversion of a `DWORD` to `int` (two's complement, 32 bits). -/
def toInt32 (n : Nat) : Int :=
  if n % 2 ^ 32 < 2 ^ 31 then (n % 2 ^ 32 : Nat) else (n % 2 ^ 32 : Nat) - 2 ^ 32

/-- Model of the exported `FindProcessByName` (lines 416-422); `none` is the
null pointer. -/
def FindProcessByName (th : Toolhelp) (processName : Option (List Nat)) : Int :=
  match processName with
  | none => 0
  | some name => toInt32 (GetProcessIdByName th name).1

/-! ## The orchestrator -/

/-- Process-wide state of the library (lines 93-94). -/
structure Globals where
  g_initialized : Bool
  g_NtQuerySystemInformation : Nat
deriving DecidableEq

/-- Answers of the environment to the calls `InjectDLL` makes outside the two
searches: module and symbol lookup, file attributes, token calls, the two
`IsWow64Process` calls (`BOOL` result and value stored), the file stream
(`fail()` after opening, `tellg()`), whether `new` yields a null pointer, and
the result of the external `ManualMapDll`.  `NtQuerySystemInformation` is the
behaviour of the function the cached pointer designates; `toolhelp` is the
process snapshot seen by `GetParentProcessId`. -/
structure World where
  GetModuleHandleW : Nat
  GetProcAddress : Nat
  GetFileAttributesA : Nat
  OpenProcessToken : Bool
  hToken : Nat
  LookupPrivilegeValue : Bool
  NtQuerySystemInformation : NtQuerySystemInformationPrototype
  toolhelp : Toolhelp
  IsWow64Target : Bool
  bTarget : Bool
  IsWow64Host : Bool
  bHost : Bool
  ifstreamFail : Bool
  tellg : Int
  newFails : Bool
  ManualMapDll : Bool

/-- Model of `LoadNtQuerySystemInformation` (lines 102-112). -/
def LoadNtQuerySystemInformation (w : World) : Nat × List Call :=
  let ntdll := w.GetModuleHandleW
  if ntdll = NULL then
    (NULL, [Call.GetModuleHandleW ntdll, Call.GetLastError])
  else
    let func := w.GetProcAddress
    if func = NULL then
      (func, [Call.GetModuleHandleW ntdll, Call.GetProcAddress func, Call.GetLastError])
    else
      (func, [Call.GetModuleHandleW ntdll, Call.GetProcAddress func])

/-- Model of `IsCorrectTargetArchitecture` (lines 298-309).  `bHost` starts as
`FALSE` and keeps that value when the second query fails. -/
def IsCorrectTargetArchitecture (w : World) (hProc : Nat) : Bool × List Call :=
  if w.IsWow64Target = false then
    (false, [Call.IsWow64Process hProc false, Call.GetLastError])
  else
    let bTarget := w.bTarget
    let bHost := if w.IsWow64Host then w.bHost else false
    (bTarget == bHost, [Call.IsWow64Process hProc true, Call.GetCurrentProcess,
      Call.IsWow64Process INVALID_HANDLE_VALUE w.IsWow64Host])

/-- Conversion of the `int processId` to the `DWORD` parameter of the searches. -/
def toDWORD (i : Int) : Nat := (i % 2 ^ 32).toNat

/-- Result of one `InjectDLL` call: the returned `bool`, the process-wide state
afterwards and the calls made. -/
structure InjectResult where
  ret : Bool
  globals : Globals
  trace : List Call
deriving DecidableEq

/-- Lines 354-363 of `InjectDLL`: best-effort enabling of the debug privilege
on the caller's token. -/
def enableDebugPrivilege (w : World) : List Call :=
  let hToken := w.hToken
  [Call.GetCurrentProcess, Call.OpenProcessToken w.OpenProcessToken hToken]
    ++ (if w.OpenProcessToken then
          [Call.LookupPrivilegeValue w.LookupPrivilegeValue]
            ++ (if w.LookupPrivilegeValue then [Call.AdjustTokenPrivileges hToken] else [])
            ++ [Call.CloseHandle hToken]
        else [])

/-- Lines 366-369 of `InjectDLL`: the direct search and, when it returns NULL,
the parent-scoped search; the value is `hProc`. -/
def acquireHandle (w : World) (processId : Nat) : Nat × List Call :=
  let d := FindPrivilegedHandleToProcess processId w.NtQuerySystemInformation 0
  if d.handle = NULL then
    let p := FindPrivilegedHandleFromParent processId w.NtQuerySystemInformation d.calls
      w.toolhelp
    (p.handle, d.trace ++ [Call.search false d.handle] ++ p.trace
      ++ [Call.search true p.handle])
  else
    (d.handle, d.trace ++ [Call.search false d.handle])

/-- Lines 376-413 of `InjectDLL`, run once `hProc` is not NULL: architecture
check, reading of the file, mapper call and clean-up. -/
def mapWithHandle (w : World) (hProc : Nat) : Bool × List Call :=
  let a := IsCorrectTargetArchitecture w hProc
  if a.1 = false then (false, a.2 ++ [Call.CloseHandle hProc])
  else
    let t1 := a.2 ++ [Call.ifstreamOpen (!w.ifstreamFail)]
    if w.ifstreamFail then (false, t1 ++ [Call.CloseHandle hProc])
    else
      let fileSize := w.tellg
      let t2 := t1 ++ [Call.ifstreamTellg fileSize]
      if fileSize < 0x1000 then
        (false, t2 ++ [Call.ifstreamClose, Call.CloseHandle hProc])
      else
        let t3 := t2 ++ [Call.operatorNew fileSize.toNat (!w.newFails)]
        if w.newFails then
          (false, t3 ++ [Call.ifstreamClose, Call.CloseHandle hProc])
        else
          let injectionSuccess := w.ManualMapDll
          (injectionSuccess, t3 ++ [Call.ifstreamRead, Call.ifstreamClose,
            Call.ManualMapDll hProc fileSize.toNat injectionSuccess,
            Call.operatorDelete, Call.CloseHandle hProc])

/-- Model of the exported `InjectDLL` (lines 333-414).  `dllPath = none` is the
null pointer.  The query calls of one run are numbered from 0.  The searches
call through the cached pointer `g_NtQuerySystemInformation`, whose behaviour
is `w.NtQuerySystemInformation`; the code only ever sets `g_initialized`
together with a non-null pointer, and a state with `g_initialized` set and a
null pointer (in which the call would fault) is outside the model. -/
def InjectDLL (w : World) (g : Globals) (dllPath : Option String) (processId : Int) :
    InjectResult :=
  if dllPath = none ∨ processId = 0 then ⟨false, g, []⟩
  else
    let ld := LoadNtQuerySystemInformation w
    if g.g_initialized = false ∧ ld.1 = NULL then
      ⟨false, ⟨g.g_initialized, ld.1⟩, ld.2⟩
    else
      let g1 : Globals := if g.g_initialized = false then ⟨true, ld.1⟩ else g
      let t1 := (if g.g_initialized = false then ld.2 else [])
        ++ [Call.GetFileAttributesA w.GetFileAttributesA]
      if w.GetFileAttributesA = INVALID_FILE_ATTRIBUTES then ⟨false, g1, t1⟩
      else
        let t2 := t1 ++ enableDebugPrivilege w
        let a := acquireHandle w (toDWORD processId)
        let hProc := a.1
        if hProc = NULL then ⟨false, g1, t2 ++ a.2⟩
        else
          let m := mapWithHandle w hProc
          ⟨m.1, g1, t2 ++ a.2 ++ m.2⟩

/-! ## Predicates used to state the properties -/

/-- Buffer lengths passed to `NtQuerySystemInformation`, in call order. -/
def queryLengths : List Call → List Nat
  | [] => []
  | .NtQuerySystemInformation length _ :: cs => length :: queryLengths cs
  | _ :: cs => queryLengths cs

/-- Sizes passed to `malloc`, in call order. -/
def mallocSizes : List Call → List Nat
  | [] => []
  | .malloc size :: cs => size :: mallocSizes cs
  | _ :: cs => mallocSizes cs

/-- Number of heap buffers allocated with `malloc` and not yet freed, starting
from `live` buffers; `none` when `free` is called with no live buffer. -/
def liveBuffers : List Call → Nat → Option Nat
  | [], live => some live
  | .malloc _ :: cs, live => liveBuffers cs (live + 1)
  | .free :: cs, live => if live = 0 then none else liveBuffers cs (live - 1)
  | _ :: cs, live => liveBuffers cs live

/-- Number of `CloseHandle` calls in a trace. -/
def closeCount : List Call → Nat
  | [] => 0
  | .CloseHandle _ :: cs => closeCount cs + 1
  | _ :: cs => closeCount cs

/-- Handles handed out by the calls of a trace, in call order. -/
def acquisitions : List Call → List Nat
  | [] => []
  | c :: cs => acquired c ++ acquisitions cs

/-- Number of `ManualMapDll` invocations in a trace. -/
def mapperCalls : List Call → Nat
  | [] => 0
  | .ManualMapDll _ _ _ :: cs => mapperCalls cs + 1
  | _ :: cs => mapperCalls cs

/-- Events logged only by `InjectDLL` itself once the handle search has run:
the two search markers and the mapper invocation. -/
def isOrchestration : Call → Bool
  | .search _ _ => true
  | .ManualMapDll _ _ _ => true
  | _ => false


/-- Filter of the direct search (line 165): some bit of `PROCESS_ALL_ACCESS` is
granted, the type number is 7 and the owner is not the target. -/
def directScope (targetPID : Nat) (h : SYSTEM_HANDLE) : Bool :=
  (h.GrantedAccess &&& PROCESS_ALL_ACCESS != 0) && (h.ObjectTypeNumber == 7)
    && (h.ProcessId != targetPID)

/-- Filter of the parent-scoped search (line 262): the type number is 7 and the
owner is the parent. -/
def parentScope (parentPID : Nat) (h : SYSTEM_HANDLE) : Bool :=
  (h.ObjectTypeNumber == 7) && (h.ProcessId == parentPID)

/-- The owning process could be opened, the handle could be duplicated out of
it, and the duplicate designates the target process. -/
def verifies (targetPID : Nat) (a : Answers) : Bool :=
  isHandle a.OpenProcess && a.DuplicateHandle && isHandle a.duplicatedHandle
    && (a.GetProcessId == targetPID)

/-- Open handles held by a search between two iterations: the current best
duplicate, if there is one. -/
def heldBest (bestHandle : Nat) : List Nat :=
  if bestHandle = NULL then [] else [bestHandle]

/-- A loop body keeps the ledger balanced when, started with only the current
best duplicate open, it ends with only the new best duplicate open. -/
def Balanced (body : LoopState → Examined → LoopState × List Call) : Prop :=
  ∀ s e, replay (body s e).2 (heldBest s.bestHandle) = some (heldBest (body s e).1.bestHandle)

/-- A loop body picks among the candidates `cand` when it replaces the best
handle exactly on a candidate with strictly greater access, and otherwise
leaves the locals alone. -/
def Picks (cand : Examined → Bool) (body : LoopState → Examined → LoopState × List Call) :
    Prop :=
  ∀ s e,
    (cand e = true ∧ s.maxAccess < e.1.GrantedAccess →
      (body s e).1.bestHandle = e.2.duplicatedHandle
        ∧ (body s e).1.maxAccess = e.1.GrantedAccess)
    ∧ (¬ (cand e = true ∧ s.maxAccess < e.1.GrantedAccess) → (body s e).1 = s)

/-- Candidates of the direct search. -/
def directCand (targetPID : Nat) (e : Examined) : Bool :=
  directScope targetPID e.1 && verifies targetPID e.2

/-- Candidates of the parent-scoped search. -/
def parentCand (targetPID parentPID : Nat) (e : Examined) : Bool :=
  parentScope parentPID e.1 && verifies targetPID e.2

/-- The record `e` is the earliest candidate of `l` carrying the greatest
access mask among the candidates of `l`: every candidate before it has a
strictly smaller mask and no candidate after it has a greater one. -/
def EarliestMax (cand : Examined → Bool) (l : List Examined) (e : Examined) : Prop :=
  ∃ pre post, l = pre ++ e :: post ∧ cand e = true
    ∧ (∀ x ∈ pre, cand x = true → x.1.GrantedAccess < e.1.GrantedAccess)
    ∧ (∀ x ∈ post, cand x = true → x.1.GrantedAccess ≤ e.1.GrantedAccess)

/-! ## Concrete inputs -/

/-- A handle-table record with the given owner, type number, handle value and
access mask. -/
def mkRecord (owner type value access : Nat) : SYSTEM_HANDLE :=
  ⟨owner, type, 0, value, 0, access⟩

/-- Answers of a system on which the owner opens as `hOwner`, the duplication
succeeds with `hDup`, and the duplicate designates process `pid`. -/
def answersOk (hOwner hDup pid : Nat) : Answers :=
  ⟨hOwner, true, hDup, pid⟩

/-- A query that succeeds at once and returns `table`. -/
def queryReturning (table : List Examined) : NtQuerySystemInformationPrototype :=
  fun _ _ length => ⟨0, length, table⟩

/-- A process snapshot in which process 42 has parent 7. -/
def sampleToolhelp : Toolhelp :=
  ⟨0x50, [⟨0, 0, [83]⟩, ⟨4, 0, [83]⟩, ⟨7, 4, [80]⟩, ⟨42, 7, [84]⟩]⟩

/-- A table whose first record has the largest mask but duplicates to a handle
of process 99, and whose second record duplicates to a handle of process 42;
both are owned by process 7 and have type number 7. -/
def sampleTable : List Examined :=
  [(mkRecord 7 7 0x10 0xFFFFFFFF, answersOk 0x100 0x104 99),
   (mkRecord 7 7 0x14 0x1FFFFF, answersOk 0x108 0x10C 42)]

/-- Three records owned by process 7 whose duplicates all designate process 42,
with masks `0x1F0FFF`, `0x1FFFFF` and `0x100000`. -/
def candA : Examined := (mkRecord 7 7 0x20 0x1F0FFF, answersOk 0x200 0x204 42)

/-- See `candA`; this record carries the greatest mask. -/
def candB : Examined := (mkRecord 7 7 0x24 0x1FFFFF, answersOk 0x208 0x20C 42)

/-- See `candA`. -/
def candC : Examined := (mkRecord 7 7 0x28 0x100000, answersOk 0x210 0x214 42)

/-- A table with one record owned by process 7, of type number 7 and with an
empty access mask, whose duplicate designates process 42. -/
def zeroAccessTable : List Examined :=
  [(mkRecord 7 7 0x30 0, answersOk 0x300 0x304 42)]

/-- A record owned by process 5, of type number 7, granting only
`PROCESS_QUERY_INFORMATION`, whose duplicate designates process 42. -/
def partialAccessRecord : Examined :=
  (mkRecord 5 7 0x40 PROCESS_QUERY_INFORMATION, answersOk 0x400 0x404 42)

/-- A process snapshot whose only entry is process 42, child of process 7,
running the image `GAME`. -/
def singleProcess : Toolhelp :=
  ⟨0x50, [⟨42, 7, [71, 65, 77, 69]⟩]⟩

/-- A query whose first call reports "buffer too small" with required length
`0x2000000` and whose later calls succeed with `sampleTable`. -/
def growingQuery : NtQuerySystemInformationPrototype :=
  fun calls _ length =>
    if calls = 0 then ⟨-1073741820, 0x2000000, []⟩ else ⟨0, length, sampleTable⟩

/-- An environment in which every step of `InjectDLL` succeeds: the symbol is
found, the file exists and holds `0x2000` bytes, the handle table is
`sampleTable`, both processes are native and the mapper succeeds. -/
def sampleWorld : World where
  GetModuleHandleW := 0x7FF0
  GetProcAddress := 0x7FF8
  GetFileAttributesA := 0x20
  OpenProcessToken := true
  hToken := 0x60
  LookupPrivilegeValue := true
  NtQuerySystemInformation := queryReturning sampleTable
  toolhelp := sampleToolhelp
  IsWow64Target := true
  bTarget := false
  IsWow64Host := true
  bHost := false
  ifstreamFail := false
  tellg := 0x2000
  newFails := false
  ManualMapDll := true

/-- The environment `sampleWorld` in which the file does not exist. -/
def missingFileWorld : World where
  GetModuleHandleW := 0x7FF0
  GetProcAddress := 0x7FF8
  GetFileAttributesA := INVALID_FILE_ATTRIBUTES
  OpenProcessToken := true
  hToken := 0x60
  LookupPrivilegeValue := true
  NtQuerySystemInformation := queryReturning sampleTable
  toolhelp := sampleToolhelp
  IsWow64Target := true
  bTarget := false
  IsWow64Host := true
  bHost := false
  ifstreamFail := false
  tellg := 0x2000
  newFails := false
  ManualMapDll := true

/-- The environment `sampleWorld` in which the handle table holds only
`partialAccessRecord`. -/
def partialAccessWorld : World where
  GetModuleHandleW := 0x7FF0
  GetProcAddress := 0x7FF8
  GetFileAttributesA := 0x20
  OpenProcessToken := true
  hToken := 0x60
  LookupPrivilegeValue := true
  NtQuerySystemInformation := queryReturning [partialAccessRecord]
  toolhelp := sampleToolhelp
  IsWow64Target := true
  bTarget := false
  IsWow64Host := true
  bHost := false
  ifstreamFail := false
  tellg := 0x2000
  newFails := false
  ManualMapDll := true

/-! ## Lemmas on the loop bodies and the scan -/

theorem directBody_fst (targetPID : Nat) (s : LoopState) (e : Examined) :
    (directBody targetPID s e).1 =
      if (directScope targetPID e.1 && verifies targetPID e.2) = true
          ∧ s.maxAccess < e.1.GrantedAccess then
        ⟨e.2.duplicatedHandle, e.1.GrantedAccess, e.1.ProcessId⟩
      else s := by
  unfold directBody
  simp only []
  split_ifs <;> simp_all [directScope, verifies, isHandle]

theorem parentBody_fst (targetPID parentPID : Nat) (s : LoopState) (e : Examined) :
    (parentBody targetPID parentPID s e).1 =
      if (parentScope parentPID e.1 && verifies targetPID e.2) = true
          ∧ s.maxAccess < e.1.GrantedAccess then
        ⟨e.2.duplicatedHandle, e.1.GrantedAccess, s.bestOwnerPID⟩
      else s := by
  unfold parentBody
  simp only []
  split_ifs <;> simp_all [parentScope, verifies, isHandle]

theorem replay_append (t1 t2 : List Call) (held : List Nat) :
    replay (t1 ++ t2) held = (replay t1 held).bind (replay t2) := by
  induction t1 generalizing held with
  | nil => simp [replay]
  | cons c cs ih =>
    cases c <;> simp [replay, ih]
    split_ifs <;> simp

theorem isHandle_iff (h : Nat) :
    isHandle h = true ↔ h ≠ NULL ∧ h ≠ INVALID_HANDLE_VALUE := by
  simp [isHandle]

theorem isHandle_ne_NULL {h : Nat} (hh : isHandle h = true) : h ≠ NULL :=
  ((isHandle_iff h).1 hh).1

theorem eq_NULL_of_isHandle {h : Nat} (hh : isHandle h = true) : (h = NULL) = False := by
  simpa using isHandle_ne_NULL hh

theorem directBody_replay (targetPID : Nat) (s : LoopState) (e : Examined) :
    replay (directBody targetPID s e).2 (heldBest s.bestHandle)
      = some (heldBest (directBody targetPID s e).1.bestHandle) := by
  obtain ⟨⟨pid, ty, fl, hv, ob, acc⟩, ⟨p, ok, d, rp⟩⟩ := e
  obtain ⟨b, m, o⟩ := s
  unfold directBody
  simp only [← isHandle_iff]
  split_ifs <;> simp [replay, acquired, heldBest, eq_NULL_of_isHandle, *]
  · by_cases hdb : d = b <;> by_cases hpb : p = b <;> by_cases hdp : d = p <;>
      simp_all [List.erase_cons]
  · rename_i hb
    have hb0 : b = NULL := by simpa using hb
    by_cases hdp : d = p <;> simp_all [List.erase_cons]

theorem parentBody_replay (targetPID parentPID : Nat) (s : LoopState) (e : Examined) :
    replay (parentBody targetPID parentPID s e).2 (heldBest s.bestHandle)
      = some (heldBest (parentBody targetPID parentPID s e).1.bestHandle) := by
  obtain ⟨⟨pid, ty, fl, hv, ob, acc⟩, ⟨p, ok, d, rp⟩⟩ := e
  obtain ⟨b, m, o⟩ := s
  unfold parentBody
  simp only [← isHandle_iff]
  split_ifs <;> simp [replay, acquired, heldBest, eq_NULL_of_isHandle, *]
  · by_cases hdb : d = b <;> by_cases hpb : p = b <;> by_cases hdp : d = p <;>
      simp_all [List.erase_cons]
  · rename_i hb
    have hb0 : b = NULL := by simpa using hb
    by_cases hdp : d = p <;> simp_all [List.erase_cons]

theorem directBody_balanced (targetPID : Nat) : Balanced (directBody targetPID) :=
  fun s e => directBody_replay targetPID s e

theorem parentBody_balanced (targetPID parentPID : Nat) :
    Balanced (parentBody targetPID parentPID) :=
  fun s e => parentBody_replay targetPID parentPID s e

theorem directBody_picks (targetPID : Nat) :
    Picks (directCand targetPID) (directBody targetPID) := by
  intro s e
  rw [directBody_fst]
  unfold directCand
  constructor
  · intro h
    rw [if_pos h]
    exact ⟨rfl, rfl⟩
  · intro h
    rw [if_neg h]

theorem parentBody_picks (targetPID parentPID : Nat) :
    Picks (parentCand targetPID parentPID) (parentBody targetPID parentPID) := by
  intro s e
  rw [parentBody_fst]
  unfold parentCand
  constructor
  · intro h
    rw [if_pos h]
    exact ⟨rfl, rfl⟩
  · intro h
    rw [if_neg h]

theorem directCand_isHandle {targetPID : Nat} {e : Examined}
    (h : directCand targetPID e = true) : isHandle e.2.duplicatedHandle = true := by
  simp [directCand, verifies] at h
  exact h.2.1.2

theorem parentCand_isHandle {targetPID parentPID : Nat} {e : Examined}
    (h : parentCand targetPID parentPID e = true) : isHandle e.2.duplicatedHandle = true := by
  simp [parentCand, verifies] at h
  exact h.2.1.2

theorem scan_append (body : LoopState → Examined → LoopState × List Call)
    (l1 l2 : List Examined) (s : LoopState) :
    scan body (l1 ++ l2) s =
      ((scan body l2 (scan body l1 s).1).1,
        (scan body l1 s).2 ++ (scan body l2 (scan body l1 s).1).2) := by
  induction l1 generalizing s with
  | nil => simp [scan]
  | cons e es ih => simp [scan, ih]

theorem scan_replay {body : LoopState → Examined → LoopState × List Call}
    (hb : Balanced body) (l : List Examined) (s : LoopState) :
    replay (scan body l s).2 (heldBest s.bestHandle)
      = some (heldBest (scan body l s).1.bestHandle) := by
  induction l generalizing s with
  | nil => simp [scan, replay]
  | cons e es ih =>
    simp only [scan]
    rw [replay_append, hb s e]
    exact ih _

/-- Selection made by a scan started in state `s`: either the locals are
unchanged and no candidate beats `s.maxAccess`, or the retained handle is the
duplicate of the earliest candidate with the greatest mask, which beats
`s.maxAccess`. -/
theorem scan_select {cand : Examined → Bool}
    {body : LoopState → Examined → LoopState × List Call}
    (hp : Picks cand body) (l : List Examined) (s : LoopState) :
    ((scan body l s).1 = s ∧ ∀ x ∈ l, cand x = true → x.1.GrantedAccess ≤ s.maxAccess)
    ∨ ∃ e, EarliestMax cand l e ∧ (scan body l s).1.bestHandle = e.2.duplicatedHandle
        ∧ (scan body l s).1.maxAccess = e.1.GrantedAccess
        ∧ s.maxAccess < e.1.GrantedAccess := by
  induction l generalizing s with
  | nil => left; simp [scan]
  | cons x xs ih =>
    simp only [scan]
    by_cases hx : cand x = true ∧ s.maxAccess < x.1.GrantedAccess
    · obtain ⟨hbest, hmax⟩ := (hp s x).1 hx
      rcases ih (body s x).1 with ⟨hsame, hle⟩ | ⟨e, ⟨pre, post, hl, hc, hpre, hpost⟩, h1, h2, h3⟩
      · right
        refine ⟨x, ⟨[], xs, rfl, hx.1, by simp, ?_⟩, ?_, ?_, hx.2⟩
        · intro y hy hcy
          rw [← hmax]
          exact hle y hy hcy
        · rw [hsame, hbest]
        · rw [hsame, hmax]
      · right
        rw [hmax] at h3
        refine ⟨e, ⟨x :: pre, post, by simp [hl], hc, ?_, hpost⟩, h1, h2, lt_trans hx.2 h3⟩
        intro y hy hcy
        rcases List.mem_cons.1 hy with rfl | hy
        · exact h3
        · exact hpre y hy hcy
    · have hs := (hp s x).2 hx
      rw [hs]
      rcases ih s with ⟨hsame, hle⟩ | ⟨e, ⟨pre, post, hl, hc, hpre, hpost⟩, h1, h2, h3⟩
      · left
        refine ⟨hsame, ?_⟩
        intro y hy hcy
        rcases List.mem_cons.1 hy with rfl | hy
        · by_contra hlt
          exact hx ⟨hcy, not_le.1 hlt⟩
        · exact hle y hy hcy
      · right
        refine ⟨e, ⟨x :: pre, post, by simp [hl], hc, ?_, hpost⟩, h1, h2, h3⟩
        intro y hy hcy
        rcases List.mem_cons.1 hy with rfl | hy
        · by_contra hlt
          exact hx ⟨hcy, lt_of_lt_of_le h3 (not_lt.1 hlt)⟩
        · exact hpre y hy hcy



/-! ## Lemmas on the searches -/

theorem scan_mem_trace {body : LoopState → Examined → LoopState × List Call}
    {c : Call} {e : Examined} (hc : ∀ s, c ∈ (body s e).2) :
    ∀ (l : List Examined) (s : LoopState), e ∈ l → c ∈ (scan body l s).2 := by
  intro l
  induction l with
  | nil => intro s h; simp at h
  | cons x xs ih =>
    intro s h
    simp only [scan, List.mem_append]
    rcases List.mem_cons.1 h with rfl | h
    · exact Or.inl (hc s)
    · exact Or.inr (ih _ h)

theorem directBody_calls_GetProcessId {targetPID : Nat} {e : Examined}
    (h : directCand targetPID e = true) (s : LoopState) :
    Call.GetProcessId e.2.duplicatedHandle targetPID ∈ (directBody targetPID s e).2 := by
  simp only [directCand, directScope, verifies, Bool.and_eq_true, isHandle_iff, bne_iff_ne,
    beq_iff_eq, ne_eq] at h
  obtain ⟨⟨⟨h1, h2⟩, h3⟩, ⟨⟨hp, hd⟩, hh⟩, hr⟩ := h
  unfold directBody
  simp only [ne_eq, h1, h2, h3, hp, hd, hh, hr, not_false_eq_true, and_self, if_true]
  split_ifs <;> simp

theorem parentBody_calls_GetProcessId {targetPID parentPID : Nat} {e : Examined}
    (h : parentCand targetPID parentPID e = true) (s : LoopState) :
    Call.GetProcessId e.2.duplicatedHandle targetPID
      ∈ (parentBody targetPID parentPID s e).2 := by
  simp only [parentCand, parentScope, verifies, Bool.and_eq_true, isHandle_iff,
    beq_iff_eq, ne_eq] at h
  obtain ⟨⟨h2, h3⟩, ⟨⟨hp, hd⟩, hh⟩, hr⟩ := h
  unfold parentBody
  simp only [ne_eq, h2, h3, hp, hd, hh, hr, not_false_eq_true, and_self, if_true]
  split_ifs <;> simp

theorem EarliestMax.mem {cand : Examined → Bool} {l : List Examined} {e : Examined}
    (h : EarliestMax cand l e) : e ∈ l := by
  obtain ⟨pre, post, hl, -⟩ := h
  simp [hl]

theorem EarliestMax.cand_true {cand : Examined → Bool} {l : List Examined} {e : Examined}
    (h : EarliestMax cand l e) : cand e = true := by
  obtain ⟨pre, post, -, hc, -⟩ := h
  exact hc

theorem EarliestMax.ge {cand : Examined → Bool} {l : List Examined} {e : Examined}
    (h : EarliestMax cand l e) {x : Examined} (hx : x ∈ l) (hc : cand x = true) :
    x.1.GrantedAccess ≤ e.1.GrantedAccess := by
  obtain ⟨pre, post, hl, -, hpre, hpost⟩ := h
  subst hl
  rcases List.mem_append.1 hx with h1 | h1
  · exact le_of_lt (hpre x h1 hc)
  · rcases List.mem_cons.1 h1 with rfl | h2
    · exact le_refl _
    · exact hpost x h2 hc

/-- Selection made by a scan started with no best handle and `maxAccess = 0`:
a handle is retained exactly when some candidate has a non-zero mask, and then
it is the duplicate of the earliest candidate with the greatest mask. -/
theorem scan_init {cand : Examined → Bool}
    {body : LoopState → Examined → LoopState × List Call}
    (hp : Picks cand body) (hh : ∀ e, cand e = true → isHandle e.2.duplicatedHandle = true)
    (l : List Examined) (o : Nat) :
    ((scan body l ⟨NULL, 0, o⟩).1.bestHandle = NULL
        ∧ ∀ x ∈ l, cand x = true → x.1.GrantedAccess = 0)
    ∨ ((scan body l ⟨NULL, 0, o⟩).1.bestHandle ≠ NULL
        ∧ ∃ e, EarliestMax cand l e
          ∧ (scan body l ⟨NULL, 0, o⟩).1.bestHandle = e.2.duplicatedHandle
          ∧ (scan body l ⟨NULL, 0, o⟩).1.maxAccess = e.1.GrantedAccess
          ∧ 0 < e.1.GrantedAccess) := by
  rcases scan_select hp l ⟨NULL, 0, o⟩ with ⟨hsame, hle⟩ | ⟨e, he, h1, h2, h3⟩
  · left
    refine ⟨by rw [hsame], ?_⟩
    intro x hx hc
    exact Nat.le_zero.1 (hle x hx hc)
  · right
    refine ⟨?_, e, he, h1, h2, h3⟩
    rw [h1]
    exact isHandle_ne_NULL (hh e he.cand_true)

theorem direct_handle_of_some {targetPID : Nat} {NtQ : NtQuerySystemInformationPrototype}
    {calls : Nat} {snapshot : List Examined}
    (hq : (QueryHandleInformation NtQ calls).handleInfo = some snapshot) :
    FindPrivilegedHandleToProcess targetPID NtQ calls =
      ⟨(scan (directBody targetPID) snapshot ⟨NULL, 0, 0⟩).1.bestHandle,
        (QueryHandleInformation NtQ calls).calls,
        (QueryHandleInformation NtQ calls).trace
          ++ (scan (directBody targetPID) snapshot ⟨NULL, 0, 0⟩).2 ++ [Call.free]⟩ := by
  unfold FindPrivilegedHandleToProcess
  simp only [hq]

theorem direct_handle_of_none {targetPID : Nat} {NtQ : NtQuerySystemInformationPrototype}
    {calls : Nat} (hq : (QueryHandleInformation NtQ calls).handleInfo = none) :
    FindPrivilegedHandleToProcess targetPID NtQ calls =
      ⟨NULL, (QueryHandleInformation NtQ calls).calls,
        (QueryHandleInformation NtQ calls).trace⟩ := by
  unfold FindPrivilegedHandleToProcess
  simp only [hq]

theorem parent_handle_of_some {targetPID : Nat} {NtQ : NtQuerySystemInformationPrototype}
    {calls : Nat} {th : Toolhelp} {snapshot : List Examined}
    (hp : (GetParentProcessId th targetPID).1 ≠ 0)
    (hq : (QueryHandleInformation NtQ calls).handleInfo = some snapshot) :
    FindPrivilegedHandleFromParent targetPID NtQ calls th =
      ⟨(scan (parentBody targetPID (GetParentProcessId th targetPID).1) snapshot
          ⟨NULL, 0, 0⟩).1.bestHandle,
        (QueryHandleInformation NtQ calls).calls,
        (GetParentProcessId th targetPID).2 ++ (QueryHandleInformation NtQ calls).trace
          ++ (scan (parentBody targetPID (GetParentProcessId th targetPID).1) snapshot
            ⟨NULL, 0, 0⟩).2 ++ [Call.free]⟩ := by
  unfold FindPrivilegedHandleFromParent
  simp only [hp, if_false, hq]

theorem parent_handle_of_none {targetPID : Nat} {NtQ : NtQuerySystemInformationPrototype}
    {calls : Nat} {th : Toolhelp}
    (hp : (GetParentProcessId th targetPID).1 ≠ 0)
    (hq : (QueryHandleInformation NtQ calls).handleInfo = none) :
    FindPrivilegedHandleFromParent targetPID NtQ calls th =
      ⟨NULL, (QueryHandleInformation NtQ calls).calls,
        (GetParentProcessId th targetPID).2 ++ (QueryHandleInformation NtQ calls).trace⟩ := by
  unfold FindPrivilegedHandleFromParent
  simp only [hp, if_false, hq]

theorem parent_handle_of_zero {targetPID : Nat} {NtQ : NtQuerySystemInformationPrototype}
    {calls : Nat} {th : Toolhelp}
    (hp : (GetParentProcessId th targetPID).1 = 0) :
    FindPrivilegedHandleFromParent targetPID NtQ calls th =
      ⟨NULL, calls, (GetParentProcessId th targetPID).2⟩ := by
  unfold FindPrivilegedHandleFromParent
  simp only [hp, if_true]

/-! ## C1: the returned handle designates the target -/

/-- C1: when `FindPrivilegedHandleToProcess` or `FindPrivilegedHandleFromParent`
returns a non-NULL handle, the snapshot contains a record whose duplication
succeeded, whose duplicate is the returned handle and for which `GetProcessId`
answered the target PID, and that `GetProcessId` call is in the trace; a record
whose duplicate resolves to another PID never changes the retained handle,
whatever its access mask. -/
theorem C1_returned_handle_resolves_to_target (targetPID : Nat)
    (NtQ : NtQuerySystemInformationPrototype) (calls : Nat) (th : Toolhelp) :
    ((FindPrivilegedHandleToProcess targetPID NtQ calls).handle ≠ NULL →
      ∃ snapshot e, (QueryHandleInformation NtQ calls).handleInfo = some snapshot
        ∧ e ∈ snapshot ∧ e.2.DuplicateHandle = true
        ∧ e.2.duplicatedHandle = (FindPrivilegedHandleToProcess targetPID NtQ calls).handle
        ∧ e.2.GetProcessId = targetPID
        ∧ Call.GetProcessId e.2.duplicatedHandle targetPID
            ∈ (FindPrivilegedHandleToProcess targetPID NtQ calls).trace)
    ∧ ((FindPrivilegedHandleFromParent targetPID NtQ calls th).handle ≠ NULL →
      ∃ snapshot e, (QueryHandleInformation NtQ calls).handleInfo = some snapshot
        ∧ e ∈ snapshot ∧ e.2.DuplicateHandle = true
        ∧ e.2.duplicatedHandle = (FindPrivilegedHandleFromParent targetPID NtQ calls th).handle
        ∧ e.2.GetProcessId = targetPID
        ∧ Call.GetProcessId e.2.duplicatedHandle targetPID
            ∈ (FindPrivilegedHandleFromParent targetPID NtQ calls th).trace)
    ∧ (∀ s e, e.2.GetProcessId ≠ targetPID → (directBody targetPID s e).1 = s)
    ∧ (∀ parentPID s e, e.2.GetProcessId ≠ targetPID →
        (parentBody targetPID parentPID s e).1 = s) := by
  refine ⟨?_, ?_, ?_, ?_⟩
  · intro hne
    cases hq : (QueryHandleInformation NtQ calls).handleInfo with
    | none => rw [direct_handle_of_none hq] at hne; exact absurd rfl hne
    | some snapshot =>
      rw [direct_handle_of_some hq] at hne ⊢
      simp only at hne ⊢
      rcases scan_init (directBody_picks targetPID) (fun e => directCand_isHandle) snapshot 0
        with ⟨h0, -⟩ | ⟨-, e, he, h1, -, -⟩
      · exact absurd h0 hne
      · have hc := he.cand_true
        refine ⟨snapshot, e, rfl, he.mem, ?_, h1.symm, ?_, ?_⟩
        · simp [directCand, verifies] at hc; exact hc.2.1.1.2
        · simp [directCand, verifies] at hc; exact hc.2.2
        · simp only [List.mem_append]
          exact Or.inl (Or.inr (scan_mem_trace (directBody_calls_GetProcessId hc) _ _ he.mem))
  · intro hne
    by_cases hp : (GetParentProcessId th targetPID).1 = 0
    · rw [parent_handle_of_zero hp] at hne; exact absurd rfl hne
    cases hq : (QueryHandleInformation NtQ calls).handleInfo with
    | none => rw [parent_handle_of_none hp hq] at hne; exact absurd rfl hne
    | some snapshot =>
      rw [parent_handle_of_some hp hq] at hne ⊢
      simp only at hne ⊢
      rcases scan_init (parentBody_picks targetPID (GetParentProcessId th targetPID).1)
        (fun e => parentCand_isHandle) snapshot 0 with ⟨h0, -⟩ | ⟨-, e, he, h1, -, -⟩
      · exact absurd h0 hne
      · have hc := he.cand_true
        refine ⟨snapshot, e, rfl, he.mem, ?_, h1.symm, ?_, ?_⟩
        · simp [parentCand, verifies] at hc; exact hc.2.1.1.2
        · simp [parentCand, verifies] at hc; exact hc.2.2
        · simp only [List.mem_append]
          exact Or.inl (Or.inr (scan_mem_trace (parentBody_calls_GetProcessId hc) _ _ he.mem))
  · intro s e hne
    rw [directBody_fst]
    have : ¬ ((directScope targetPID e.1 && verifies targetPID e.2) = true
        ∧ s.maxAccess < e.1.GrantedAccess) := by
      simp [verifies, hne]
    rw [if_neg this]
  · intro parentPID s e hne
    rw [parentBody_fst]
    have : ¬ ((parentScope parentPID e.1 && verifies targetPID e.2) = true
        ∧ s.maxAccess < e.1.GrantedAccess) := by
      simp [verifies, hne]
    rw [if_neg this]

/-- Witness for C1 on `sampleTable`, where the record with the largest mask
resolves to process 99: both searches return the duplicate `0x10C` of the second
record, for which `GetProcessId` answered 42. -/
theorem C1_returned_handle_resolves_to_target_witness :
    (FindPrivilegedHandleFromParent 42 (queryReturning sampleTable) 0 sampleToolhelp).handle
        = 0x10C
    ∧ ∃ snapshot e, (QueryHandleInformation (queryReturning sampleTable) 0).handleInfo
          = some snapshot
        ∧ e ∈ snapshot ∧ e.2.DuplicateHandle = true
        ∧ e.2.duplicatedHandle
          = (FindPrivilegedHandleFromParent 42 (queryReturning sampleTable) 0
              sampleToolhelp).handle
        ∧ e.2.GetProcessId = 42
        ∧ Call.GetProcessId e.2.duplicatedHandle 42
            ∈ (FindPrivilegedHandleFromParent 42 (queryReturning sampleTable) 0
                sampleToolhelp).trace :=
  ⟨by decide,
    (C1_returned_handle_resolves_to_target 42 (queryReturning sampleTable) 0
      sampleToolhelp).2.1 (by decide)⟩

/-! ## C2: the earliest candidate with the greatest mask is retained -/

theorem scan_greatest_of_three {cand : Examined → Bool}
    {body : LoopState → Examined → LoopState × List Call}
    (hp : Picks cand body) (hh : ∀ e, cand e = true → isHandle e.2.duplicatedHandle = true)
    {a b c : Examined} {l l' : List Examined} (hl : l'.Perm l)
    (hcands : ∀ x ∈ l, cand x = true → x = a ∨ x = b ∨ x = c) (hbl : b ∈ l)
    (hb : cand b = true)
    (hab : a.1.GrantedAccess < b.1.GrantedAccess)
    (hcb : c.1.GrantedAccess < b.1.GrantedAccess) :
    (scan body l' ⟨NULL, 0, 0⟩).1.bestHandle = b.2.duplicatedHandle
      ∧ (scan body l' ⟨NULL, 0, 0⟩).1.maxAccess = b.1.GrantedAccess := by
  have hbl' : b ∈ l' := hl.mem_iff.2 hbl
  rcases scan_init hp hh l' 0 with ⟨-, hz⟩ | ⟨-, e, he, h1, h2, -⟩
  · have := hz b hbl' hb
    omega
  · have hle := he.ge hbl' hb
    rcases hcands e (hl.mem_iff.1 he.mem) he.cand_true with rfl | rfl | rfl
    · omega
    · exact ⟨h1, h2⟩
    · omega

/-- C2: for both searches, a returned handle is the duplicate of the earliest
record, in snapshot order, whose mask is the greatest among the records that
pass the filter of the search, duplicate successfully and verify as the target
(every earlier such record has a strictly smaller mask, no later one a greater
mask), and `maxAccess` is that mask.  Hence when the records of a snapshot `l`
that pass the filter and verify are three records with masks A, B, C, B > A and
B > C, the duplicate of the record with mask B is retained, with `maxAccess = B`,
on every permutation of `l`. -/
theorem C2_earliest_greatest_mask_retained (targetPID : Nat)
    (NtQ : NtQuerySystemInformationPrototype) (calls : Nat) (th : Toolhelp) :
    (∀ snapshot, (QueryHandleInformation NtQ calls).handleInfo = some snapshot →
      (FindPrivilegedHandleToProcess targetPID NtQ calls).handle ≠ NULL →
      ∃ e, EarliestMax (directCand targetPID) snapshot e
        ∧ (FindPrivilegedHandleToProcess targetPID NtQ calls).handle = e.2.duplicatedHandle
        ∧ (scan (directBody targetPID) snapshot ⟨NULL, 0, 0⟩).1.maxAccess
            = e.1.GrantedAccess)
    ∧ (∀ snapshot, (QueryHandleInformation NtQ calls).handleInfo = some snapshot →
      (FindPrivilegedHandleFromParent targetPID NtQ calls th).handle ≠ NULL →
      ∃ e, EarliestMax (parentCand targetPID (GetParentProcessId th targetPID).1) snapshot e
        ∧ (FindPrivilegedHandleFromParent targetPID NtQ calls th).handle
            = e.2.duplicatedHandle
        ∧ (scan (parentBody targetPID (GetParentProcessId th targetPID).1) snapshot
            ⟨NULL, 0, 0⟩).1.maxAccess = e.1.GrantedAccess)
    ∧ (∀ a b c l l', l'.Perm l →
      (QueryHandleInformation NtQ calls).handleInfo = some l' →
      (∀ x ∈ l, directCand targetPID x = true → x = a ∨ x = b ∨ x = c) →
      b ∈ l → directCand targetPID b = true →
      a.1.GrantedAccess < b.1.GrantedAccess → c.1.GrantedAccess < b.1.GrantedAccess →
      (FindPrivilegedHandleToProcess targetPID NtQ calls).handle = b.2.duplicatedHandle
        ∧ (scan (directBody targetPID) l' ⟨NULL, 0, 0⟩).1.maxAccess = b.1.GrantedAccess)
    ∧ (∀ a b c l l', l'.Perm l →
      (QueryHandleInformation NtQ calls).handleInfo = some l' →
      (GetParentProcessId th targetPID).1 ≠ 0 →
      (∀ x ∈ l, parentCand targetPID (GetParentProcessId th targetPID).1 x = true →
        x = a ∨ x = b ∨ x = c) →
      b ∈ l → parentCand targetPID (GetParentProcessId th targetPID).1 b = true →
      a.1.GrantedAccess < b.1.GrantedAccess → c.1.GrantedAccess < b.1.GrantedAccess →
      (FindPrivilegedHandleFromParent targetPID NtQ calls th).handle = b.2.duplicatedHandle
        ∧ (scan (parentBody targetPID (GetParentProcessId th targetPID).1) l'
            ⟨NULL, 0, 0⟩).1.maxAccess = b.1.GrantedAccess) := by
  refine ⟨?_, ?_, ?_, ?_⟩
  · intro snapshot hq hne
    rw [direct_handle_of_some hq] at hne ⊢
    simp only at hne ⊢
    rcases scan_init (directBody_picks targetPID) (fun e => directCand_isHandle) snapshot 0
      with ⟨h0, -⟩ | ⟨-, e, he, h1, h2, -⟩
    · exact absurd h0 hne
    · exact ⟨e, he, h1, h2⟩
  · intro snapshot hq hne
    by_cases hp : (GetParentProcessId th targetPID).1 = 0
    · rw [parent_handle_of_zero hp] at hne; exact absurd rfl hne
    rw [parent_handle_of_some hp hq] at hne ⊢
    simp only at hne ⊢
    rcases scan_init (parentBody_picks targetPID (GetParentProcessId th targetPID).1)
      (fun e => parentCand_isHandle) snapshot 0 with ⟨h0, -⟩ | ⟨-, e, he, h1, h2, -⟩
    · exact absurd h0 hne
    · exact ⟨e, he, h1, h2⟩
  · intro a b c l l' hl hq hcands hbl hb hab hcb
    rw [direct_handle_of_some hq]
    exact scan_greatest_of_three (directBody_picks targetPID)
      (fun e => directCand_isHandle) hl hcands hbl hb hab hcb
  · intro a b c l l' hl hq hp hcands hbl hb hab hcb
    rw [parent_handle_of_some hp hq]
    exact scan_greatest_of_three
      (parentBody_picks targetPID (GetParentProcessId th targetPID).1)
      (fun e => parentCand_isHandle) hl hcands hbl hb hab hcb

/-- Witness for C2: on the table `[candC, candA, candB]` the parent-scoped
search for process 42 returns the duplicate `0x20C` of `candB`, whose mask
`0x1FFFFF` is the greatest of the three. -/
theorem C2_earliest_greatest_mask_retained_witness :
    (FindPrivilegedHandleFromParent 42 (queryReturning [candC, candA, candB]) 0
        sampleToolhelp).handle = 0x20C
    ∧ (scan (parentBody 42 (GetParentProcessId sampleToolhelp 42).1) [candC, candA, candB]
        ⟨NULL, 0, 0⟩).1.maxAccess = 0x1FFFFF :=
  (C2_earliest_greatest_mask_retained 42 (queryReturning [candC, candA, candB]) 0
    sampleToolhelp).2.2.2 candA candB candC [candA, candB, candC] [candC, candA, candB]
    (by decide) rfl (by decide) (by decide) (by decide) (by decide) (by decide) (by decide)

/-! ## C9: when a search returns nothing -/

theorem directScope_pos {targetPID : Nat} {h : SYSTEM_HANDLE}
    (hs : directScope targetPID h = true) : 0 < h.GrantedAccess := by
  simp only [directScope, Bool.and_eq_true, bne_iff_ne, ne_eq] at hs
  rcases Nat.eq_zero_or_pos h.GrantedAccess with h0 | h0
  · rw [h0, Nat.zero_and] at hs
    exact absurd rfl hs.1.1
  · exact h0

/-- Counterexample to C9 as stated: in `zeroAccessTable` the only record is of
type 7, is owned by the parent (process 7, not the target 42), opens,
duplicates and resolves to the target, yet both searches return NULL. -/
theorem C9_counterexample :
    (QueryHandleInformation (queryReturning zeroAccessTable) 0).handleInfo
        = some zeroAccessTable
    ∧ (GetParentProcessId sampleToolhelp 42).1 = 7
    ∧ (∃ e ∈ zeroAccessTable, e.1.ObjectTypeNumber = 7 ∧ e.1.ProcessId = 7
        ∧ e.1.ProcessId ≠ 42 ∧ verifies 42 e.2 = true)
    ∧ (FindPrivilegedHandleFromParent 42 (queryReturning zeroAccessTable) 0
        sampleToolhelp).handle = NULL
    ∧ (FindPrivilegedHandleToProcess 42 (queryReturning zeroAccessTable) 0).handle = NULL := by
  decide

/-- C9 (amended): given a captured snapshot, the direct search returns a
non-NULL handle exactly when some record passing its filter (line 165) opens,
duplicates and resolves to the target; the parent-scoped search, once the parent
is known, returns a non-NULL handle exactly when some record of type 7 owned by
the parent opens, duplicates, resolves to the target and has a non-zero access
mask. -/
theorem C9_null_iff_no_usable_candidate (targetPID : Nat)
    (NtQ : NtQuerySystemInformationPrototype) (calls : Nat) (th : Toolhelp)
    (snapshot : List Examined)
    (hq : (QueryHandleInformation NtQ calls).handleInfo = some snapshot) :
    ((FindPrivilegedHandleToProcess targetPID NtQ calls).handle ≠ NULL ↔
      ∃ e ∈ snapshot, directCand targetPID e = true)
    ∧ ((GetParentProcessId th targetPID).1 ≠ 0 →
      ((FindPrivilegedHandleFromParent targetPID NtQ calls th).handle ≠ NULL ↔
        ∃ e ∈ snapshot, parentCand targetPID (GetParentProcessId th targetPID).1 e = true
          ∧ 0 < e.1.GrantedAccess)) := by
  constructor
  · rw [direct_handle_of_some hq]
    simp only
    rcases scan_init (directBody_picks targetPID) (fun e => directCand_isHandle) snapshot 0
      with ⟨h0, hz⟩ | ⟨hne, e, he, -, -, -⟩
    · constructor
      · intro h; exact absurd h0 h
      · rintro ⟨e, he, hc⟩
        have h1 := hz e he hc
        have h2 : directScope targetPID e.1 = true := by
          simp only [directCand, Bool.and_eq_true] at hc
          exact hc.1
        have h3 := directScope_pos h2
        omega
    · exact ⟨fun _ => ⟨e, he.mem, he.cand_true⟩, fun _ => hne⟩
  · intro hp
    rw [parent_handle_of_some hp hq]
    simp only
    rcases scan_init (parentBody_picks targetPID (GetParentProcessId th targetPID).1)
      (fun e => parentCand_isHandle) snapshot 0 with ⟨h0, hz⟩ | ⟨hne, e, he, -, -, hpos⟩
    · constructor
      · intro h; exact absurd h0 h
      · rintro ⟨e, he, hc, hpos⟩
        have h1 := hz e he hc
        omega
    · exact ⟨fun _ => ⟨e, he.mem, he.cand_true, hpos⟩, fun _ => hne⟩

/-- Witness for C9 (amended) on `sampleTable`, whose second record is a
candidate of the parent-scoped search for target 42. -/
theorem C9_null_iff_no_usable_candidate_witness :
    (GetParentProcessId sampleToolhelp 42).1 ≠ 0 ∧
    ((FindPrivilegedHandleFromParent 42 (queryReturning sampleTable) 0
        sampleToolhelp).handle ≠ NULL ↔
      ∃ e ∈ sampleTable, parentCand 42 (GetParentProcessId sampleToolhelp 42).1 e = true
        ∧ 0 < e.1.GrantedAccess) :=
  ⟨by decide,
    (C9_null_iff_no_usable_candidate 42 (queryReturning sampleTable) 0 sampleToolhelp
      sampleTable rfl).2 (by decide)⟩

/-! ## C3: the access-mask filter of the searches -/

/-- C3 fails on the code: `partialAccessRecord` grants only
`PROCESS_QUERY_INFORMATION`, so its mask does not include `PROCESS_ALL_ACCESS`,
yet the direct search for target 42 opens its owner, duplicates its handle and
returns the duplicate `0x404`; in `InjectDLL` that result is taken as `hProc`
and the handle acquisition ends with the direct search, the parent-scoped
search not being attempted.  The parent-scoped search likewise opens the owner
and duplicates the handle of a record with an empty mask. -/
theorem C3_partial_access_record_examined :
    partialAccessRecord.1.GrantedAccess &&& PROCESS_ALL_ACCESS ≠ PROCESS_ALL_ACCESS
    ∧ partialAccessRecord.1.GrantedAccess &&& PROCESS_ALL_ACCESS ≠ 0
    ∧ Call.OpenProcess (PROCESS_QUERY_INFORMATION ||| PROCESS_DUP_HANDLE) 5 0x400
        ∈ (directBody 42 ⟨NULL, 0, 0⟩ partialAccessRecord).2
    ∧ Call.DuplicateHandle 0x400 0x40 true 0x404
        ∈ (directBody 42 ⟨NULL, 0, 0⟩ partialAccessRecord).2
    ∧ (FindPrivilegedHandleToProcess 42 (queryReturning [partialAccessRecord]) 0).handle
        = 0x404
    ∧ (acquireHandle partialAccessWorld 42).1 = 0x404
    ∧ (acquireHandle partialAccessWorld 42).2.getLast? = some (Call.search false 0x404)
    ∧ (acquireHandle partialAccessWorld 42).2.filter
        (fun c => c matches Call.search true _) = []
    ∧ ∃ e ∈ zeroAccessTable,
        e.1.GrantedAccess &&& PROCESS_ALL_ACCESS ≠ PROCESS_ALL_ACCESS
        ∧ Call.OpenProcess PROCESS_DUP_HANDLE 7 0x300 ∈ (parentBody 42 7 ⟨NULL, 0, 0⟩ e).2
        ∧ Call.DuplicateHandle 0x300 0x30 true 0x304
            ∈ (parentBody 42 7 ⟨NULL, 0, 0⟩ e).2 := by
  decide

/-! ## C5: lookup of a process by name -/

/-- C5 fails on the code: in the snapshot `singleProcess` the only entry is
process 42 running `GAME`, which matches the name `game` case-insensitively,
yet `FindProcessByName` returns 0, because the entry fetched by `Process32First`
is overwritten by `Process32Next` before the first comparison.  More generally
the result never depends on the first entry of the snapshot.  The sibling walk
`GetParentProcessId` does examine the first entry. -/
theorem C5_first_entry_never_compared :
    (∃ e ∈ singleProcess.entries, _wcsicmp e.szExeFile [103, 97, 109, 101] = 0
        ∧ e.th32ProcessID = 42)
    ∧ FindProcessByName singleProcess (some [103, 97, 109, 101]) = 0
    ∧ (GetParentProcessId singleProcess 42).1 = 7
    ∧ ∀ (h : Nat) (first other : PROCESSENTRY32W) (rest : List PROCESSENTRY32W)
        (name : List Nat),
        FindProcessByName ⟨h, first :: rest⟩ (some name)
          = FindProcessByName ⟨h, other :: rest⟩ (some name) := by
  refine ⟨by decide, by decide, by decide, ?_⟩
  intro h first other rest name
  simp [FindProcessByName, GetProcessIdByName]

/-! ## C7: the snapshot query retries once -/

/-- C7: `QueryHandleInformation` calls the query with the initial length
`0x1000000` and, exactly when the first status is `0xC0000004`, a second time
with the length the first call left in `bufferSize`; it makes no further call.
It returns the table of the last call when the status of that call is 0 and
null otherwise, in particular when the retry reports `0xC0000004` again; on a
null result every buffer it allocated has been freed, on success exactly one is
live; each call is made on a buffer allocated with the length passed. -/
theorem C7_query_retries_once (NtQ : NtQuerySystemInformationPrototype) (calls : Nat) :
    (queryLengths (QueryHandleInformation NtQ calls).trace =
      if (NtQ calls SystemHandleInformation 0x1000000).status % 2 ^ 32 = 0xC0000004 then
        [0x1000000, (NtQ calls SystemHandleInformation 0x1000000).ReturnLength]
      else [0x1000000])
    ∧ (QueryHandleInformation NtQ calls).calls
        = calls + (queryLengths (QueryHandleInformation NtQ calls).trace).length
    ∧ ((NtQ calls SystemHandleInformation 0x1000000).status % 2 ^ 32 ≠ 0xC0000004 →
        (QueryHandleInformation NtQ calls).trace.filter
            (fun c => c matches Call.NtQuerySystemInformation _ _)
          = [Call.NtQuerySystemInformation 0x1000000
              (NtQ calls SystemHandleInformation 0x1000000).status]
        ∧ (QueryHandleInformation NtQ calls).handleInfo =
          if (NtQ calls SystemHandleInformation 0x1000000).status = 0 then
            some (NtQ calls SystemHandleInformation 0x1000000).table
          else none)
    ∧ ((NtQ calls SystemHandleInformation 0x1000000).status % 2 ^ 32 = 0xC0000004 →
        (QueryHandleInformation NtQ calls).trace.filter
            (fun c => c matches Call.NtQuerySystemInformation _ _)
          = [Call.NtQuerySystemInformation 0x1000000
              (NtQ calls SystemHandleInformation 0x1000000).status,
            Call.NtQuerySystemInformation
              (NtQ calls SystemHandleInformation 0x1000000).ReturnLength
              (NtQ (calls + 1) SystemHandleInformation
                (NtQ calls SystemHandleInformation 0x1000000).ReturnLength).status]
        ∧ (QueryHandleInformation NtQ calls).handleInfo =
          if (NtQ (calls + 1) SystemHandleInformation
              (NtQ calls SystemHandleInformation 0x1000000).ReturnLength).status = 0 then
            some (NtQ (calls + 1) SystemHandleInformation
              (NtQ calls SystemHandleInformation 0x1000000).ReturnLength).table
          else none)
    ∧ ((NtQ calls SystemHandleInformation 0x1000000).status % 2 ^ 32 = 0xC0000004 →
        (NtQ (calls + 1) SystemHandleInformation
          (NtQ calls SystemHandleInformation 0x1000000).ReturnLength).status % 2 ^ 32
            = 0xC0000004 →
        (QueryHandleInformation NtQ calls).handleInfo = none
          ∧ (queryLengths (QueryHandleInformation NtQ calls).trace).length = 2)
    ∧ liveBuffers (QueryHandleInformation NtQ calls).trace 0
        = some (if (QueryHandleInformation NtQ calls).handleInfo = none then 0 else 1)
    ∧ mallocSizes (QueryHandleInformation NtQ calls).trace
        = queryLengths (QueryHandleInformation NtQ calls).trace := by
  unfold QueryHandleInformation
  simp only
  refine ⟨?_, ?_, ?_, ?_, ?_, ?_, ?_⟩
  rotate_right
  · split_ifs <;> simp [queryLengths, mallocSizes]
  · split_ifs <;> simp [queryLengths]
  · split_ifs <;> simp [queryLengths]
  · intro h
    rw [if_neg h]
    split_ifs <;> simp_all
  · intro h
    rw [if_pos h]
    split_ifs <;> simp_all
  · intro h h2
    rw [if_pos h]
    have : (NtQ (calls + 1) SystemHandleInformation
        (NtQ calls SystemHandleInformation 0x1000000).ReturnLength).status ≠ 0 := by
      intro h0
      rw [h0] at h2
      simp at h2
    simp [this, queryLengths]
  · by_cases h1 : (NtQ calls SystemHandleInformation 0x1000000).status % 2 ^ 32 = 0xC0000004
    · rw [if_pos h1]
      by_cases h2 : (NtQ (calls + 1) SystemHandleInformation
          (NtQ calls SystemHandleInformation 0x1000000).ReturnLength).status = 0
      · rw [if_neg (not_not.2 h2)]
        simp [liveBuffers]
      · rw [if_pos h2]
        simp [liveBuffers]
    · rw [if_neg h1]
      by_cases h2 : (NtQ calls SystemHandleInformation 0x1000000).status = 0
      · rw [if_neg (not_not.2 h2)]
        simp [liveBuffers]
      · rw [if_pos h2]
        simp [liveBuffers]

/-- Witness for C7 on `growingQuery`: the first call reports `0xC0000004` and the
length `0x2000000`, the retry is made with that length and succeeds. -/
theorem C7_query_retries_once_witness :
    (growingQuery 0 SystemHandleInformation 0x1000000).status % 2 ^ 32 = 0xC0000004
    ∧ (QueryHandleInformation growingQuery 0).trace.filter
          (fun c => c matches Call.NtQuerySystemInformation _ _)
        = [Call.NtQuerySystemInformation 0x1000000 (-1073741820),
           Call.NtQuerySystemInformation 0x2000000 0]
    ∧ (QueryHandleInformation growingQuery 0).handleInfo = some sampleTable :=
  ⟨by decide, (C7_query_retries_once growingQuery 0).2.2.2.1 (by decide)⟩

/-! ## C6: the handle ledger of the searches -/

theorem replay_count (t : List Call) :
    ∀ (held out : List Nat), replay t held = some out →
      closeCount t + out.length = (acquisitions t).length + held.length := by
  induction t with
  | nil =>
    intro held out h
    simp only [replay, Option.some.injEq] at h
    simp [closeCount, acquisitions, h]
  | cons c cs ih =>
    intro held out h
    cases c
    case CloseHandle x =>
      simp only [replay] at h
      split_ifs at h with hx
      have := ih _ _ h
      have hl := List.length_erase_of_mem hx
      have hpos : 0 < held.length := List.length_pos_of_mem hx
      simp only [closeCount, acquisitions, acquired, List.nil_append]
      omega
    all_goals
      simp only [replay] at h
      have := ih _ _ h
      simp only [closeCount, acquisitions, List.length_append] at this ⊢
      omega

theorem QueryHandleInformation_replay (NtQ : NtQuerySystemInformationPrototype)
    (calls : Nat) (held : List Nat) :
    replay (QueryHandleInformation NtQ calls).trace held = some held := by
  unfold QueryHandleInformation
  simp only
  split_ifs <;> simp [replay, acquired]

theorem parentWalk_replay (processId : Nat) (rest : List PROCESSENTRY32W) :
    ∀ (pe32 : PROCESSENTRY32W) (held : List Nat),
      replay (parentWalk processId pe32 rest).2 held = some held := by
  induction rest with
  | nil =>
    intro pe32 held
    unfold parentWalk
    split_ifs <;> simp [replay, acquired]
  | cons next rest ih =>
    intro pe32 held
    unfold parentWalk
    split_ifs
    · simp [replay]
    · simp [replay, acquired, ih]

theorem GetParentProcessId_replay (th : Toolhelp) (processId : Nat) :
    replay (GetParentProcessId th processId).2 [] = some [] := by
  unfold GetParentProcessId
  simp only
  split_ifs with h
  · simp [replay, acquired, h]
  · cases hentries : th.entries with
    | nil => simp [replay, acquired, h]
    | cons pe32 rest =>
      simp only
      cases (parentWalk processId pe32 rest).1 <;>
        simp [replay, acquired, h, replay_append, parentWalk_replay]

theorem direct_replay (targetPID : Nat) (NtQ : NtQuerySystemInformationPrototype)
    (calls : Nat) :
    replay (FindPrivilegedHandleToProcess targetPID NtQ calls).trace []
      = some (heldBest (FindPrivilegedHandleToProcess targetPID NtQ calls).handle) := by
  cases hq : (QueryHandleInformation NtQ calls).handleInfo with
  | none =>
    rw [direct_handle_of_none hq]
    simp [QueryHandleInformation_replay, heldBest]
  | some snapshot =>
    rw [direct_handle_of_some hq]
    have := scan_replay (directBody_balanced targetPID) snapshot ⟨NULL, 0, 0⟩
    simp only [heldBest, if_true] at this
    simp [replay_append, QueryHandleInformation_replay, this, replay, acquired, heldBest]

theorem parent_replay (targetPID : Nat) (NtQ : NtQuerySystemInformationPrototype)
    (calls : Nat) (th : Toolhelp) :
    replay (FindPrivilegedHandleFromParent targetPID NtQ calls th).trace []
      = some (heldBest (FindPrivilegedHandleFromParent targetPID NtQ calls th).handle) := by
  by_cases hp : (GetParentProcessId th targetPID).1 = 0
  · rw [parent_handle_of_zero hp]
    simp [GetParentProcessId_replay, heldBest]
  cases hq : (QueryHandleInformation NtQ calls).handleInfo with
  | none =>
    rw [parent_handle_of_none hp hq]
    simp [replay_append, GetParentProcessId_replay, QueryHandleInformation_replay, heldBest]
  | some snapshot =>
    rw [parent_handle_of_some hp hq]
    have := scan_replay (parentBody_balanced targetPID (GetParentProcessId th targetPID).1)
      snapshot ⟨NULL, 0, 0⟩
    simp only [heldBest, if_true] at this
    simp [replay_append, GetParentProcessId_replay, QueryHandleInformation_replay, this,
      replay, acquired, heldBest]

theorem directBody_closes_owner (targetPID : Nat) (s : LoopState) (e : Examined)
    (ho : isHandle e.2.OpenProcess = true) (hne : (directBody targetPID s e).2 ≠ []) :
    (directBody targetPID s e).2.getLast? = some (Call.CloseHandle e.2.OpenProcess) := by
  revert hne
  unfold directBody
  simp only [← isHandle_iff]
  split_ifs <;> simp_all

theorem parentBody_closes_owner (targetPID parentPID : Nat) (s : LoopState) (e : Examined)
    (ho : isHandle e.2.OpenProcess = true)
    (hne : (parentBody targetPID parentPID s e).2 ≠ []) :
    (parentBody targetPID parentPID s e).2.getLast? = some (Call.CloseHandle e.2.OpenProcess) := by
  revert hne
  unfold parentBody
  simp only [← isHandle_iff]
  split_ifs <;> simp_all

/-- C6: replaying the calls of a search on an empty set of open handles never
closes a handle that is not open and leaves, at the start of every loop
iteration, exactly the current best duplicate open (nothing when there is
none); the calls made for one record end with `CloseHandle` on the owner handle
when it was opened; at return of `FindPrivilegedHandleToProcess` and
`FindPrivilegedHandleFromParent` the open handles are exactly the returned one
(none for NULL), and the number of `CloseHandle` calls is the number of handles
acquired minus the one returned. -/
theorem C6_handles_closed_exactly_once (targetPID parentPID : Nat)
    (NtQ : NtQuerySystemInformationPrototype) (calls : Nat) (th : Toolhelp) :
    (∀ (snapshot : List Examined) (k : Nat),
      replay (scan (directBody targetPID) (snapshot.take k) ⟨NULL, 0, 0⟩).2 []
        = some (heldBest
            (scan (directBody targetPID) (snapshot.take k) ⟨NULL, 0, 0⟩).1.bestHandle))
    ∧ (∀ (snapshot : List Examined) (k : Nat),
      replay (scan (parentBody targetPID parentPID) (snapshot.take k) ⟨NULL, 0, 0⟩).2 []
        = some (heldBest
            (scan (parentBody targetPID parentPID) (snapshot.take k)
              ⟨NULL, 0, 0⟩).1.bestHandle))
    ∧ (∀ s e, replay (directBody targetPID s e).2 (heldBest s.bestHandle)
          = some (heldBest (directBody targetPID s e).1.bestHandle)
        ∧ (isHandle e.2.OpenProcess = true → (directBody targetPID s e).2 ≠ [] →
          (directBody targetPID s e).2.getLast? = some (Call.CloseHandle e.2.OpenProcess)))
    ∧ (∀ s e, replay (parentBody targetPID parentPID s e).2 (heldBest s.bestHandle)
          = some (heldBest (parentBody targetPID parentPID s e).1.bestHandle)
        ∧ (isHandle e.2.OpenProcess = true → (parentBody targetPID parentPID s e).2 ≠ [] →
          (parentBody targetPID parentPID s e).2.getLast?
            = some (Call.CloseHandle e.2.OpenProcess)))
    ∧ replay (FindPrivilegedHandleToProcess targetPID NtQ calls).trace []
        = some (heldBest (FindPrivilegedHandleToProcess targetPID NtQ calls).handle)
    ∧ replay (FindPrivilegedHandleFromParent targetPID NtQ calls th).trace []
        = some (heldBest (FindPrivilegedHandleFromParent targetPID NtQ calls th).handle)
    ∧ closeCount (FindPrivilegedHandleToProcess targetPID NtQ calls).trace
          + (heldBest (FindPrivilegedHandleToProcess targetPID NtQ calls).handle).length
        = (acquisitions (FindPrivilegedHandleToProcess targetPID NtQ calls).trace).length
    ∧ closeCount (FindPrivilegedHandleFromParent targetPID NtQ calls th).trace
          + (heldBest (FindPrivilegedHandleFromParent targetPID NtQ calls th).handle).length
        = (acquisitions (FindPrivilegedHandleFromParent targetPID NtQ calls th).trace).length
    ∧ (∀ h, (heldBest h).length ≤ 1 ∧ (h ≠ NULL → heldBest h = [h])
        ∧ (h = NULL → heldBest h = [])) := by
  refine ⟨?_, ?_, ?_, ?_, direct_replay targetPID NtQ calls,
    parent_replay targetPID NtQ calls th, ?_, ?_, ?_⟩
  · intro snapshot k
    exact scan_replay (directBody_balanced targetPID) _ ⟨NULL, 0, 0⟩
  · intro snapshot k
    exact scan_replay (parentBody_balanced targetPID parentPID) _ ⟨NULL, 0, 0⟩
  · intro s e
    exact ⟨directBody_replay targetPID s e, directBody_closes_owner targetPID s e⟩
  · intro s e
    exact ⟨parentBody_replay targetPID parentPID s e,
      parentBody_closes_owner targetPID parentPID s e⟩
  · have := replay_count _ _ _ (direct_replay targetPID NtQ calls)
    simpa using this
  · have := replay_count _ _ _ (parent_replay targetPID NtQ calls th)
    simpa using this
  · intro h
    unfold heldBest
    split_ifs with h0 <;> simp [h0]

/-- Witness for C6 on `sampleTable`: the direct search for target 42 acquires
four handles, closes three and returns the fourth. -/
theorem C6_handles_closed_exactly_once_witness :
    replay (FindPrivilegedHandleToProcess 42 (queryReturning sampleTable) 0).trace []
      = some [0x10C]
    ∧ closeCount (FindPrivilegedHandleToProcess 42 (queryReturning sampleTable) 0).trace = 3
    ∧ (acquisitions (FindPrivilegedHandleToProcess 42 (queryReturning sampleTable) 0).trace)
        = [0x100, 0x104, 0x108, 0x10C] :=
  ⟨(C6_handles_closed_exactly_once 42 7 (queryReturning sampleTable) 0
      sampleToolhelp).2.2.2.2.1, by decide, by decide⟩

/-! ## Lemmas on the orchestrator -/

theorem LoadNtQuerySystemInformation_replay (w : World) (held : List Nat) :
    replay (LoadNtQuerySystemInformation w).2 held = some held := by
  unfold LoadNtQuerySystemInformation
  simp only
  split_ifs <;> simp [replay, acquired]

theorem IsCorrectTargetArchitecture_replay (w : World) (hProc : Nat) (held : List Nat) :
    replay (IsCorrectTargetArchitecture w hProc).2 held = some held := by
  unfold IsCorrectTargetArchitecture
  simp only
  split_ifs <;> simp [replay, acquired]

theorem enableDebugPrivilege_replay (w : World) :
    replay (enableDebugPrivilege w) [] = some [] := by
  unfold enableDebugPrivilege
  simp only
  split_ifs <;> simp [replay, acquired, *]

theorem acquireHandle_replay (w : World) (processId : Nat) :
    replay (acquireHandle w processId).2 [] = some (heldBest (acquireHandle w processId).1) := by
  unfold acquireHandle
  simp only
  split_ifs with h
  · have hd := direct_replay processId w.NtQuerySystemInformation 0
    rw [h] at hd
    simp only [heldBest, if_true] at hd
    simp [replay_append, hd, replay, acquired, parent_replay]
  · simp [replay_append, direct_replay, replay, acquired]

theorem mapWithHandle_replay (w : World) (hProc : Nat) :
    replay (mapWithHandle w hProc).2 [hProc] = some [] := by
  unfold mapWithHandle
  simp only
  split_ifs <;>
    simp [replay_append, replay, acquired, IsCorrectTargetArchitecture_replay]

theorem replay_seq {t1 t2 : List Call} {held mid out : List Nat}
    (h1 : replay t1 held = some mid) (h2 : replay t2 mid = some out) :
    replay (t1 ++ t2) held = some out := by
  rw [replay_append, h1]
  exact h2

theorem heldBest_of_ne {h : Nat} (hh : h ≠ NULL) : heldBest h = [h] := by
  simp [heldBest, hh]

theorem heldBest_of_eq {h : Nat} (hh : h = NULL) : heldBest h = [] := by
  simp [heldBest, hh]

theorem prelude_replay (w : World) (g : Globals) :
    replay ((if g.g_initialized = false then (LoadNtQuerySystemInformation w).2 else [])
      ++ [Call.GetFileAttributesA w.GetFileAttributesA]) [] = some [] := by
  split_ifs <;>
    simp [replay_append, LoadNtQuerySystemInformation_replay, replay, acquired]

theorem InjectDLL_replay (w : World) (g : Globals) (dllPath : Option String)
    (processId : Int) :
    replay (InjectDLL w g dllPath processId).trace [] = some [] := by
  unfold InjectDLL
  simp only
  by_cases h1 : dllPath = none ∨ processId = 0
  · rw [if_pos h1]
    rfl
  rw [if_neg h1]
  by_cases h2 : g.g_initialized = false ∧ (LoadNtQuerySystemInformation w).1 = NULL
  · rw [if_pos h2]
    exact LoadNtQuerySystemInformation_replay w []
  rw [if_neg h2]
  by_cases h3 : w.GetFileAttributesA = INVALID_FILE_ATTRIBUTES
  · rw [if_pos h3]
    exact prelude_replay w g
  rw [if_neg h3]
  by_cases h4 : (acquireHandle w (toDWORD processId)).1 = NULL
  · rw [if_pos h4]
    refine replay_seq (replay_seq (prelude_replay w g) (enableDebugPrivilege_replay w)) ?_
    rw [acquireHandle_replay, heldBest_of_eq h4]
  · rw [if_neg h4]
    refine replay_seq (replay_seq (replay_seq (prelude_replay w g)
      (enableDebugPrivilege_replay w)) (acquireHandle_replay w _)) ?_
    rw [heldBest_of_ne h4]
    exact mapWithHandle_replay w _

/-! ### Calls that only the orchestrator makes -/

theorem mapperCalls_append (t1 t2 : List Call) :
    mapperCalls (t1 ++ t2) = mapperCalls t1 + mapperCalls t2 := by
  induction t1 with
  | nil => simp [mapperCalls]
  | cons c cs ih =>
    cases c <;> simp [mapperCalls, ih]
    omega

theorem closeCount_append (t1 t2 : List Call) :
    closeCount (t1 ++ t2) = closeCount t1 + closeCount t2 := by
  induction t1 with
  | nil => simp [closeCount]
  | cons c cs ih =>
    cases c <;> simp [closeCount, ih]
    omega

theorem acquisitions_append (t1 t2 : List Call) :
    acquisitions (t1 ++ t2) = acquisitions t1 ++ acquisitions t2 := by
  induction t1 with
  | nil => simp [acquisitions]
  | cons c cs ih => simp [acquisitions, ih]

theorem mapperCalls_of_inner {t : List Call}
    (h : ∀ c ∈ t, isOrchestration c = false) : mapperCalls t = 0 := by
  induction t with
  | nil => rfl
  | cons c cs ih =>
    have hc := h c (List.mem_cons_self _ _)
    have hcs := ih (fun x hx => h x (List.mem_cons_of_mem _ hx))
    cases c <;> simp_all [mapperCalls, isOrchestration]

theorem search_not_mem_of_inner {t : List Call}
    (h : ∀ c ∈ t, isOrchestration c = false) (b : Bool) (x : Nat) :
    Call.search b x ∉ t := by
  intro hm
  have := h _ hm
  simp [isOrchestration] at this

theorem inner_append {t1 t2 : List Call}
    (h1 : ∀ c ∈ t1, isOrchestration c = false) (h2 : ∀ c ∈ t2, isOrchestration c = false) :
    ∀ c ∈ t1 ++ t2, isOrchestration c = false := by
  intro c hc
  rcases List.mem_append.1 hc with h | h
  · exact h1 c h
  · exact h2 c h

theorem directBody_inner (targetPID : Nat) (s : LoopState) (e : Examined) :
    ∀ c ∈ (directBody targetPID s e).2, isOrchestration c = false := by
  unfold directBody
  simp only
  split_ifs <;> simp [isOrchestration]

theorem parentBody_inner (targetPID parentPID : Nat) (s : LoopState) (e : Examined) :
    ∀ c ∈ (parentBody targetPID parentPID s e).2, isOrchestration c = false := by
  unfold parentBody
  simp only
  split_ifs <;> simp [isOrchestration]

theorem scan_inner {body : LoopState → Examined → LoopState × List Call}
    (hb : ∀ s e, ∀ c ∈ (body s e).2, isOrchestration c = false) (l : List Examined) :
    ∀ s, ∀ c ∈ (scan body l s).2, isOrchestration c = false := by
  induction l with
  | nil => intro s c hc; simp [scan] at hc
  | cons e es ih =>
    intro s
    simp only [scan]
    exact inner_append (hb s e) (ih _)

theorem QueryHandleInformation_inner (NtQ : NtQuerySystemInformationPrototype)
    (calls : Nat) :
    ∀ c ∈ (QueryHandleInformation NtQ calls).trace, isOrchestration c = false := by
  unfold QueryHandleInformation
  simp only
  split_ifs <;> simp [isOrchestration]

theorem parentWalk_inner (processId : Nat) (rest : List PROCESSENTRY32W) :
    ∀ (pe32 : PROCESSENTRY32W),
      ∀ c ∈ (parentWalk processId pe32 rest).2, isOrchestration c = false := by
  induction rest with
  | nil =>
    intro pe32
    unfold parentWalk
    split_ifs <;> simp [isOrchestration]
  | cons next rest ih =>
    intro pe32
    unfold parentWalk
    split_ifs
    · simp
    · intro c hc
      rcases List.mem_cons.1 hc with rfl | h
      · rfl
      · exact ih next c h

theorem GetParentProcessId_inner (th : Toolhelp) (processId : Nat) :
    ∀ c ∈ (GetParentProcessId th processId).2, isOrchestration c = false := by
  have hsingle : ∀ x : Call, isOrchestration x = false →
      ∀ c ∈ [x], isOrchestration c = false := by
    intro x hx c hc
    rw [List.mem_singleton.1 hc]
    exact hx
  unfold GetParentProcessId
  simp only
  split_ifs with h
  · simp [isOrchestration]
  · cases hentries : th.entries with
    | nil => simp [isOrchestration]
    | cons pe32 rest =>
      simp only
      cases (parentWalk processId pe32 rest).1 <;>
        exact inner_append (inner_append (inner_append (hsingle _ rfl) (hsingle _ rfl))
          (parentWalk_inner processId rest pe32)) (hsingle _ rfl)

theorem direct_inner (targetPID : Nat) (NtQ : NtQuerySystemInformationPrototype)
    (calls : Nat) :
    ∀ c ∈ (FindPrivilegedHandleToProcess targetPID NtQ calls).trace,
      isOrchestration c = false := by
  cases hq : (QueryHandleInformation NtQ calls).handleInfo with
  | none =>
    rw [direct_handle_of_none hq]
    exact QueryHandleInformation_inner NtQ calls
  | some snapshot =>
    rw [direct_handle_of_some hq]
    exact inner_append (inner_append (QueryHandleInformation_inner NtQ calls)
      (scan_inner (directBody_inner targetPID) snapshot _)) (by simp [isOrchestration])

theorem parent_inner (targetPID : Nat) (NtQ : NtQuerySystemInformationPrototype)
    (calls : Nat) (th : Toolhelp) :
    ∀ c ∈ (FindPrivilegedHandleFromParent targetPID NtQ calls th).trace,
      isOrchestration c = false := by
  by_cases hp : (GetParentProcessId th targetPID).1 = 0
  · rw [parent_handle_of_zero hp]
    exact GetParentProcessId_inner th targetPID
  cases hq : (QueryHandleInformation NtQ calls).handleInfo with
  | none =>
    rw [parent_handle_of_none hp hq]
    exact inner_append (GetParentProcessId_inner th targetPID)
      (QueryHandleInformation_inner NtQ calls)
  | some snapshot =>
    rw [parent_handle_of_some hp hq]
    exact inner_append (inner_append (inner_append (GetParentProcessId_inner th targetPID)
      (QueryHandleInformation_inner NtQ calls))
      (scan_inner (parentBody_inner targetPID _) snapshot _)) (by simp [isOrchestration])

theorem prelude_inner (w : World) (g : Globals) :
    ∀ c ∈ (if g.g_initialized = false then (LoadNtQuerySystemInformation w).2 else [])
      ++ [Call.GetFileAttributesA w.GetFileAttributesA], isOrchestration c = false := by
  unfold LoadNtQuerySystemInformation
  simp only
  split_ifs <;> simp [isOrchestration]

theorem LoadNtQuerySystemInformation_inner (w : World) :
    ∀ c ∈ (LoadNtQuerySystemInformation w).2, isOrchestration c = false := by
  unfold LoadNtQuerySystemInformation
  simp only
  split_ifs <;> simp [isOrchestration]

theorem enableDebugPrivilege_inner (w : World) :
    ∀ c ∈ enableDebugPrivilege w, isOrchestration c = false := by
  unfold enableDebugPrivilege
  simp only
  split_ifs <;> simp [isOrchestration]

theorem IsCorrectTargetArchitecture_inner (w : World) (hProc : Nat) :
    ∀ c ∈ (IsCorrectTargetArchitecture w hProc).2, isOrchestration c = false := by
  unfold IsCorrectTargetArchitecture
  simp only
  split_ifs <;> simp [isOrchestration]

theorem IsCorrectTargetArchitecture_quiet (w : World) (hProc : Nat) :
    closeCount (IsCorrectTargetArchitecture w hProc).2 = 0
      ∧ acquisitions (IsCorrectTargetArchitecture w hProc).2 = [] := by
  unfold IsCorrectTargetArchitecture
  simp only
  split_ifs <;> simp [closeCount, acquisitions, acquired]

theorem IsCorrectTargetArchitecture_calls (w : World) (hProc : Nat)
    (h : (IsCorrectTargetArchitecture w hProc).1 = true) :
    Call.IsWow64Process hProc true ∈ (IsCorrectTargetArchitecture w hProc).2 := by
  revert h
  unfold IsCorrectTargetArchitecture
  simp only
  split_ifs <;> simp

theorem acquireHandle_fst (w : World) (processId : Nat) :
    (acquireHandle w processId).1 =
      if (FindPrivilegedHandleToProcess processId w.NtQuerySystemInformation 0).handle = NULL
      then (FindPrivilegedHandleFromParent processId w.NtQuerySystemInformation
        (FindPrivilegedHandleToProcess processId w.NtQuerySystemInformation 0).calls
        w.toolhelp).handle
      else (FindPrivilegedHandleToProcess processId w.NtQuerySystemInformation 0).handle := by
  unfold acquireHandle
  simp only
  split_ifs <;> rfl

theorem acquireHandle_mapperCalls (w : World) (processId : Nat) :
    mapperCalls (acquireHandle w processId).2 = 0 := by
  unfold acquireHandle
  simp only
  split_ifs <;>
    simp [mapperCalls_append, mapperCalls, mapperCalls_of_inner (direct_inner _ _ _),
      mapperCalls_of_inner (parent_inner _ _ _ _)]

theorem acquireHandle_direct_marker (w : World) (processId : Nat) (h : Nat) :
    Call.search false h ∈ (acquireHandle w processId).2 ↔
      h = (FindPrivilegedHandleToProcess processId w.NtQuerySystemInformation 0).handle := by
  unfold acquireHandle
  simp only
  split_ifs <;>
    simp [search_not_mem_of_inner (direct_inner _ _ _),
      search_not_mem_of_inner (parent_inner _ _ _ _)]

theorem acquireHandle_parent_marker (w : World) (processId : Nat) (h : Nat) :
    Call.search true h ∈ (acquireHandle w processId).2 ↔
      (FindPrivilegedHandleToProcess processId w.NtQuerySystemInformation 0).handle = NULL
      ∧ h = (FindPrivilegedHandleFromParent processId w.NtQuerySystemInformation
        (FindPrivilegedHandleToProcess processId w.NtQuerySystemInformation 0).calls
        w.toolhelp).handle := by
  unfold acquireHandle
  simp only
  split_ifs with h0 <;>
    simp [search_not_mem_of_inner (direct_inner _ _ _),
      search_not_mem_of_inner (parent_inner _ _ _ _), h0]

theorem mapWithHandle_no_marker (w : World) (hProc : Nat) (b : Bool) (h : Nat) :
    Call.search b h ∉ (mapWithHandle w hProc).2 := by
  unfold mapWithHandle
  simp only
  split_ifs <;>
    simp [search_not_mem_of_inner (IsCorrectTargetArchitecture_inner _ _)]

theorem mapWithHandle_closes (w : World) (hProc : Nat) :
    closeCount (mapWithHandle w hProc).2 = 1
      ∧ acquisitions (mapWithHandle w hProc).2 = []
      ∧ (mapWithHandle w hProc).2.getLast? = some (Call.CloseHandle hProc) := by
  have hq := IsCorrectTargetArchitecture_quiet w hProc
  unfold mapWithHandle
  simp only
  split_ifs <;>
    simp [closeCount_append, acquisitions_append, closeCount, acquisitions, acquired, hq.1,
      hq.2, List.getLast?_append]

/-- The mapper is reached from `mapWithHandle` exactly when the architecture
check succeeds, the file opens, its size is at least `0x1000` and the buffer is
allocated. -/
theorem mapWithHandle_mapped (w : World) (hProc : Nat)
    (ha : (IsCorrectTargetArchitecture w hProc).1 = true) (hf : w.ifstreamFail = false)
    (hs : (0x1000 : Int) ≤ w.tellg) (hn : w.newFails = false) :
    mapWithHandle w hProc =
      (w.ManualMapDll,
        (IsCorrectTargetArchitecture w hProc).2
          ++ [Call.ifstreamOpen true, Call.ifstreamTellg w.tellg,
            Call.operatorNew w.tellg.toNat true]
          ++ [Call.ifstreamRead, Call.ifstreamClose,
            Call.ManualMapDll hProc w.tellg.toNat w.ManualMapDll,
            Call.operatorDelete, Call.CloseHandle hProc]) := by
  unfold mapWithHandle
  simp only
  rw [if_neg (by simp [ha]), if_neg (by simp [hf]), if_neg (not_lt.2 hs),
    if_neg (by simp [hn])]
  simp [hf, hn]

theorem mapWithHandle_not_mapped (w : World) (hProc : Nat)
    (h : ¬ ((IsCorrectTargetArchitecture w hProc).1 = true ∧ w.ifstreamFail = false
      ∧ (0x1000 : Int) ≤ w.tellg ∧ w.newFails = false)) :
    (mapWithHandle w hProc).1 = false ∧ mapperCalls (mapWithHandle w hProc).2 = 0 := by
  have hi := mapperCalls_of_inner (IsCorrectTargetArchitecture_inner w hProc)
  unfold mapWithHandle
  simp only
  split_ifs with h1 h2 h3 h4
  · simp [mapperCalls_append, mapperCalls, hi]
  · simp [mapperCalls_append, mapperCalls, hi]
  · simp [mapperCalls_append, mapperCalls, hi]
  · simp [mapperCalls_append, mapperCalls, hi]
  · exfalso
    apply h
    refine ⟨by simpa using h1, by simpa using h2, not_lt.1 h3, by simpa using h4⟩

theorem LoadNtQuerySystemInformation_quiet (w : World) :
    closeCount (LoadNtQuerySystemInformation w).2 = 0
      ∧ acquisitions (LoadNtQuerySystemInformation w).2 = [] := by
  unfold LoadNtQuerySystemInformation
  simp only
  split_ifs <;> simp [closeCount, acquisitions, acquired]

theorem prelude_quiet (w : World) (g : Globals) :
    closeCount ((if g.g_initialized = false then (LoadNtQuerySystemInformation w).2 else [])
        ++ [Call.GetFileAttributesA w.GetFileAttributesA]) = 0
      ∧ acquisitions ((if g.g_initialized = false then (LoadNtQuerySystemInformation w).2
        else []) ++ [Call.GetFileAttributesA w.GetFileAttributesA]) = [] := by
  have hq := LoadNtQuerySystemInformation_quiet w
  split_ifs <;>
    simp [closeCount_append, acquisitions_append, closeCount, acquisitions, acquired, hq.1,
      hq.2]

theorem enableDebugPrivilege_token (w : World) :
    closeCount (enableDebugPrivilege w) = (acquisitions (enableDebugPrivilege w)).length
      ∧ acquisitions (enableDebugPrivilege w)
          = (if w.OpenProcessToken = true then [w.hToken] else []) := by
  unfold enableDebugPrivilege
  simp only
  split_ifs <;> simp [closeCount, acquisitions, acquired, *]

/-- Shape of a run of `InjectDLL`: it either returns `false` before the
privilege step, having touched no handle, or runs the privilege step and the
handle acquisition and then, when a handle was found, `mapWithHandle`. -/
theorem InjectDLL_cases (w : World) (g : Globals) (dllPath : Option String)
    (processId : Int) :
    ((InjectDLL w g dllPath processId).ret = false
      ∧ (∀ c ∈ (InjectDLL w g dllPath processId).trace, isOrchestration c = false)
      ∧ replay (InjectDLL w g dllPath processId).trace [] = some []
      ∧ closeCount (InjectDLL w g dllPath processId).trace = 0
      ∧ acquisitions (InjectDLL w g dllPath processId).trace = [])
    ∨ ∃ pre, (∀ c ∈ pre, isOrchestration c = false) ∧ replay pre [] = some []
        ∧ closeCount pre = 0 ∧ acquisitions pre = []
        ∧ (((acquireHandle w (toDWORD processId)).1 = NULL
            ∧ (InjectDLL w g dllPath processId).ret = false
            ∧ (InjectDLL w g dllPath processId).trace
                = pre ++ enableDebugPrivilege w ++ (acquireHandle w (toDWORD processId)).2)
          ∨ ((acquireHandle w (toDWORD processId)).1 ≠ NULL
            ∧ (InjectDLL w g dllPath processId).ret
                = (mapWithHandle w (acquireHandle w (toDWORD processId)).1).1
            ∧ (InjectDLL w g dllPath processId).trace
                = pre ++ enableDebugPrivilege w ++ (acquireHandle w (toDWORD processId)).2
                  ++ (mapWithHandle w (acquireHandle w (toDWORD processId)).1).2)) := by
  unfold InjectDLL
  simp only
  by_cases h1 : dllPath = none ∨ processId = 0
  · rw [if_pos h1]
    left
    simp [replay, closeCount, acquisitions]
  rw [if_neg h1]
  by_cases h2 : g.g_initialized = false ∧ (LoadNtQuerySystemInformation w).1 = NULL
  · rw [if_pos h2]
    left
    exact ⟨rfl, LoadNtQuerySystemInformation_inner w,
      LoadNtQuerySystemInformation_replay w [],
      (LoadNtQuerySystemInformation_quiet w).1, (LoadNtQuerySystemInformation_quiet w).2⟩
  rw [if_neg h2]
  by_cases h3 : w.GetFileAttributesA = INVALID_FILE_ATTRIBUTES
  · rw [if_pos h3]
    left
    exact ⟨rfl, prelude_inner w g, prelude_replay w g, (prelude_quiet w g).1,
      (prelude_quiet w g).2⟩
  rw [if_neg h3]
  right
  refine ⟨_, prelude_inner w g, prelude_replay w g, (prelude_quiet w g).1,
    (prelude_quiet w g).2, ?_⟩
  by_cases h4 : (acquireHandle w (toDWORD processId)).1 = NULL
  · rw [if_pos h4]
    exact Or.inl ⟨h4, rfl, rfl⟩
  · rw [if_neg h4]
    exact Or.inr ⟨h4, rfl, rfl⟩

/-! ## C4: argument check of `InjectDLL` -/

/-- Counterexample to C4 as stated: called with the empty (non-null) path and
process 42 from the initial state, `InjectDLL` looks up the module and the
symbol, queries the file attributes and sets the initialisation state before
returning `false`. -/
theorem C4_counterexample :
    InjectDLL missingFileWorld ⟨false, NULL⟩ (some "") 42
      = ⟨false, ⟨true, 0x7FF8⟩,
          [Call.GetModuleHandleW 0x7FF0, Call.GetProcAddress 0x7FF8,
            Call.GetFileAttributesA INVALID_FILE_ATTRIBUTES]⟩ := by
  decide

/-- C4 (amended): when `dllPath` is null or `processId` is 0, `InjectDLL`
returns `false`, makes no call at all and leaves `g_initialized` and
`g_NtQuerySystemInformation` unchanged. -/
theorem C4_null_path_or_zero_pid_rejected (w : World) (g : Globals)
    (dllPath : Option String) (processId : Int)
    (h : dllPath = none ∨ processId = 0) :
    InjectDLL w g dllPath processId = ⟨false, g, []⟩ := by
  unfold InjectDLL
  rw [if_pos h]

/-- Witness for C4 (amended): a call with a path and process 0. -/
theorem C4_null_path_or_zero_pid_rejected_witness :
    InjectDLL sampleWorld ⟨false, NULL⟩ (some "payload.dll") 0 = ⟨false, ⟨false, NULL⟩, []⟩ :=
  C4_null_path_or_zero_pid_rejected sampleWorld ⟨false, NULL⟩ (some "payload.dll") 0
    (Or.inr rfl)

/-! ## C8: the mapper is invoked at most once, after every check -/

/-- C8: in every run of `InjectDLL` from a state in which the cached query
pointer is set whenever `g_initialized` holds, `ManualMapDll` is invoked at most
once.  When it is invoked, the handle passed is the non-NULL result of the
direct search, or of the parent-scoped search when the direct search returned
NULL, the architecture check succeeded, the file opened and its size is at least
`0x1000`; all of these calls precede the invocation, and `InjectDLL` returns
the mapper's result.  When it is not invoked, in particular when the size is
below `0x1000`, `InjectDLL` returns `false`.  The parent-scoped search is
attempted exactly when the direct search was attempted and returned NULL. -/
theorem C8_mapper_invoked_once_after_checks (w : World) (g : Globals)
    (dllPath : Option String) (processId : Int)
    (_hg : g.g_initialized = true → g.g_NtQuerySystemInformation ≠ NULL) :
    let r := InjectDLL w g dllPath processId
    let d := FindPrivilegedHandleToProcess (toDWORD processId) w.NtQuerySystemInformation 0
    let p := FindPrivilegedHandleFromParent (toDWORD processId) w.NtQuerySystemInformation
      d.calls w.toolhelp
    mapperCalls r.trace ≤ 1
    ∧ (mapperCalls r.trace = 1 →
        ∃ hProc pre, hProc ≠ NULL
          ∧ (hProc = d.handle ∨ (d.handle = NULL ∧ hProc = p.handle))
          ∧ (IsCorrectTargetArchitecture w hProc).1 = true
          ∧ w.ifstreamFail = false ∧ (0x1000 : Int) ≤ w.tellg
          ∧ r.trace = pre ++ [Call.ifstreamRead, Call.ifstreamClose,
              Call.ManualMapDll hProc w.tellg.toNat w.ManualMapDll,
              Call.operatorDelete, Call.CloseHandle hProc]
          ∧ mapperCalls pre = 0
          ∧ (Call.search false hProc ∈ pre ∨ Call.search true hProc ∈ pre)
          ∧ Call.IsWow64Process hProc true ∈ pre
          ∧ Call.ifstreamOpen true ∈ pre
          ∧ Call.ifstreamTellg w.tellg ∈ pre
          ∧ r.ret = w.ManualMapDll)
    ∧ (mapperCalls r.trace = 0 → r.ret = false)
    ∧ (w.tellg < 0x1000 → mapperCalls r.trace = 0 ∧ r.ret = false)
    ∧ (∀ h, Call.search false h ∈ r.trace → h = d.handle)
    ∧ (∀ h, Call.search true h ∈ r.trace → h = p.handle)
    ∧ ((∃ h, Call.search true h ∈ r.trace) ↔ Call.search false NULL ∈ r.trace) := by
  intro r d p
  have hfst : (acquireHandle w (toDWORD processId)).1
      = if d.handle = NULL then p.handle else d.handle := acquireHandle_fst w _
  have hdm : ∀ h, Call.search false h ∈ (acquireHandle w (toDWORD processId)).2
      ↔ h = d.handle := acquireHandle_direct_marker w _
  have hpm : ∀ h, Call.search true h ∈ (acquireHandle w (toDWORD processId)).2
      ↔ d.handle = NULL ∧ h = p.handle := acquireHandle_parent_marker w _
  have hnm := mapWithHandle_no_marker w (acquireHandle w (toDWORD processId)).1
  rcases InjectDLL_cases w g dllPath processId with
    ⟨hret, hin, -, -, -⟩ | ⟨pre, hpre, -, -, -, hB⟩
  · -- return before the privilege step
    have hm : mapperCalls r.trace = 0 := mapperCalls_of_inner hin
    have hno : ∀ b h, Call.search b h ∉ r.trace := search_not_mem_of_inner hin
    refine ⟨by omega, ?_, fun _ => hret, fun _ => ⟨hm, hret⟩, ?_, ?_, ?_⟩
    · intro h1; omega
    · intro h hh; exact absurd hh (hno _ _)
    · intro h hh; exact absurd hh (hno _ _)
    · constructor
      · rintro ⟨h, hh⟩; exact absurd hh (hno _ _)
      · intro hh; exact absurd hh (hno _ _)
  · have hpm0 : mapperCalls pre = 0 := mapperCalls_of_inner hpre
    have hem0 : mapperCalls (enableDebugPrivilege w) = 0 :=
      mapperCalls_of_inner (enableDebugPrivilege_inner w)
    have ham0 := acquireHandle_mapperCalls w (toDWORD processId)
    have hpn : ∀ b h, Call.search b h ∉ pre := search_not_mem_of_inner hpre
    have hen : ∀ b h, Call.search b h ∉ enableDebugPrivilege w :=
      search_not_mem_of_inner (enableDebugPrivilege_inner w)
    have hmem : ∀ b h, Call.search b h ∈ r.trace ↔
        Call.search b h ∈ (acquireHandle w (toDWORD processId)).2 := by
      intro b h
      rcases hB with ⟨-, -, ht⟩ | ⟨-, -, ht⟩
      · show Call.search b h ∈ (InjectDLL w g dllPath processId).trace ↔ _
        rw [ht]
        simp [hpn, hen]
      · show Call.search b h ∈ (InjectDLL w g dllPath processId).trace ↔ _
        rw [ht]
        simp [hpn, hen, hnm]
    have hmark : (∀ h, Call.search false h ∈ r.trace → h = d.handle)
        ∧ (∀ h, Call.search true h ∈ r.trace → h = p.handle)
        ∧ ((∃ h, Call.search true h ∈ r.trace) ↔ Call.search false NULL ∈ r.trace) := by
      refine ⟨fun h hh => (hdm h).1 ((hmem _ _).1 hh),
        fun h hh => ((hpm h).1 ((hmem _ _).1 hh)).2, ?_⟩
      constructor
      · rintro ⟨h, hh⟩
        exact (hmem _ _).2 ((hdm _).2 ((hpm h).1 ((hmem _ _).1 hh)).1.symm)
      · intro hh
        have h0 : d.handle = NULL := ((hdm _).1 ((hmem _ _).1 hh)).symm
        exact ⟨p.handle, (hmem _ _).2 ((hpm _).2 ⟨h0, rfl⟩)⟩
    rcases hB with ⟨-, hret, ht⟩ | ⟨hne, hret, ht⟩
    · -- no handle found
      have hm : mapperCalls r.trace = 0 := by
        show mapperCalls (InjectDLL w g dllPath processId).trace = 0
        rw [ht, mapperCalls_append, mapperCalls_append, hpm0, hem0, ham0]
      refine ⟨by omega, ?_, fun _ => hret, fun _ => ⟨hm, hret⟩, hmark⟩
      intro h1; omega
    · by_cases hc : (IsCorrectTargetArchitecture w (acquireHandle w (toDWORD processId)).1).1
          = true ∧ w.ifstreamFail = false ∧ (0x1000 : Int) ≤ w.tellg ∧ w.newFails = false
      · -- the mapper is reached
        obtain ⟨ha, hf, hs, hn⟩ := hc
        have hmw := mapWithHandle_mapped w _ ha hf hs hn
        rw [hmw] at ht hret
        simp only at ht hret
        have hai := mapperCalls_of_inner
          (IsCorrectTargetArchitecture_inner w (acquireHandle w (toDWORD processId)).1)
        have hm : mapperCalls r.trace = 1 := by
          show mapperCalls (InjectDLL w g dllPath processId).trace = 1
          rw [ht]
          simp only [mapperCalls_append, hpm0, hem0, ham0, hai]
          rfl
        refine ⟨by omega, ?_, ?_, ?_, hmark⟩
        · intro _
          refine ⟨(acquireHandle w (toDWORD processId)).1,
            pre ++ enableDebugPrivilege w ++ (acquireHandle w (toDWORD processId)).2
              ++ ((IsCorrectTargetArchitecture w (acquireHandle w (toDWORD processId)).1).2
                ++ [Call.ifstreamOpen true, Call.ifstreamTellg w.tellg,
                  Call.operatorNew w.tellg.toNat true]),
            hne, ?_, ha, hf, hs, ?_, ?_, ?_, ?_, ?_, ?_, hret⟩
          · rw [hfst]
            by_cases h0 : d.handle = NULL
            · rw [if_pos h0]; exact Or.inr ⟨h0, rfl⟩
            · rw [if_neg h0]; exact Or.inl rfl
          · show (InjectDLL w g dllPath processId).trace = _
            rw [ht]
            simp [List.append_assoc]
          · simp only [mapperCalls_append, hpm0, hem0, ham0, hai]
            rfl
          · by_cases h0 : d.handle = NULL
            · right
              have : (acquireHandle w (toDWORD processId)).1 = p.handle := by
                rw [hfst, if_pos h0]
              simp only [List.mem_append]
              exact Or.inl (Or.inr ((hpm _).2 ⟨h0, this⟩))
            · left
              have : (acquireHandle w (toDWORD processId)).1 = d.handle := by
                rw [hfst, if_neg h0]
              simp only [List.mem_append]
              exact Or.inl (Or.inr ((hdm _).2 this))
          · have := IsCorrectTargetArchitecture_calls w _ ha
            simp [this]
          · simp
          · simp
        · intro h0; omega
        · intro hlt
          exact absurd hs (not_le.2 hlt)
      · -- a check after the search fails
        obtain ⟨hfalse, hm0⟩ := mapWithHandle_not_mapped w _ hc
        have hm : mapperCalls r.trace = 0 := by
          show mapperCalls (InjectDLL w g dllPath processId).trace = 0
          rw [ht, mapperCalls_append, mapperCalls_append, mapperCalls_append, hpm0, hem0,
            ham0, hm0]
        have hr : r.ret = false := by
          show (InjectDLL w g dllPath processId).ret = false
          rw [hret, hfalse]
        refine ⟨by omega, ?_, fun _ => hr, fun _ => ⟨hm, hr⟩, hmark⟩
        intro h1; omega

/-- Witness for C8 in `sampleWorld`: from the initial state the mapper is
invoked once and `InjectDLL` returns its result `true`. -/
theorem C8_mapper_invoked_once_after_checks_witness :
    ((⟨false, NULL⟩ : Globals).g_initialized = true →
        (⟨false, NULL⟩ : Globals).g_NtQuerySystemInformation ≠ NULL)
    ∧ mapperCalls (InjectDLL sampleWorld ⟨false, NULL⟩ (some "payload.dll") 42).trace = 1
    ∧ (InjectDLL sampleWorld ⟨false, NULL⟩ (some "payload.dll") 42).ret = true
    ∧ mapperCalls (InjectDLL sampleWorld ⟨false, NULL⟩ (some "payload.dll") 42).trace ≤ 1 :=
  ⟨by decide, by decide, by decide,
    (C8_mapper_invoked_once_after_checks sampleWorld ⟨false, NULL⟩ (some "payload.dll") 42
      (by decide)).1⟩

/-! ## C10: every handle acquired by `InjectDLL` is released -/

/-- C10: in every run of `InjectDLL` from a state in which the cached query
pointer is set whenever `g_initialized` holds, replaying the calls on an empty
set of open handles never closes a handle that is not open and ends with no
handle open, and there are as many `CloseHandle` calls as handles acquired.
The trace splits into the calls before the privilege step (which touch no
handle), the privilege step (which closes the token handle once when it was
opened), the searches (which leave exactly the returned handle `hProc` open) and
the calls after the searches, which acquire nothing, contain exactly one
`CloseHandle` when `hProc` is not NULL, namely the last call `CloseHandle hProc`,
and none otherwise. -/
theorem C10_every_handle_released (w : World) (g : Globals) (dllPath : Option String)
    (processId : Int)
    (_hg : g.g_initialized = true → g.g_NtQuerySystemInformation ≠ NULL) :
    let r := InjectDLL w g dllPath processId
    replay r.trace [] = some []
    ∧ closeCount r.trace = (acquisitions r.trace).length
    ∧ ∃ pre tok acq fin hProc, r.trace = pre ++ tok ++ acq ++ fin
        ∧ closeCount pre = 0 ∧ acquisitions pre = []
        ∧ (tok = [] ∨ tok = enableDebugPrivilege w)
        ∧ replay tok [] = some []
        ∧ closeCount tok = (acquisitions tok).length
        ∧ (acquisitions tok = [] ∨ acquisitions tok = [w.hToken])
        ∧ replay acq [] = some (heldBest hProc)
        ∧ (hProc ≠ NULL → Call.search false hProc ∈ acq ∨ Call.search true hProc ∈ acq)
        ∧ (∀ b h, Call.search b h ∈ r.trace → h ≠ NULL → h = hProc)
        ∧ replay fin (heldBest hProc) = some []
        ∧ closeCount fin = (heldBest hProc).length
        ∧ acquisitions fin = []
        ∧ (hProc ≠ NULL → fin.getLast? = some (Call.CloseHandle hProc)) := by
  intro r
  have hrep : replay r.trace [] = some [] := InjectDLL_replay w g dllPath processId
  have hcount : closeCount r.trace = (acquisitions r.trace).length := by
    have := replay_count _ _ _ hrep
    simpa using this
  refine ⟨hrep, hcount, ?_⟩
  have hnull : heldBest NULL = [] := rfl
  have htok := enableDebugPrivilege_token w
  have htok2 : acquisitions (enableDebugPrivilege w) = []
      ∨ acquisitions (enableDebugPrivilege w) = [w.hToken] := by
    rw [htok.2]
    split_ifs
    · exact Or.inr rfl
    · exact Or.inl rfl
  have hfst := acquireHandle_fst w (toDWORD processId)
  have hdm := acquireHandle_direct_marker w (toDWORD processId)
  have hpm := acquireHandle_parent_marker w (toDWORD processId)
  have hacq : ∀ b h, Call.search b h ∈ (acquireHandle w (toDWORD processId)).2 → h ≠ NULL →
      h = (acquireHandle w (toDWORD processId)).1 := by
    intro b h hm hne
    cases b
    · have hd := (hdm h).1 hm
      rw [hfst, if_neg (by rw [← hd]; exact hne)]
      exact hd
    · have hp := (hpm h).1 hm
      rw [hfst, if_pos hp.1]
      exact hp.2
  have hself : (acquireHandle w (toDWORD processId)).1 ≠ NULL →
      Call.search false (acquireHandle w (toDWORD processId)).1
          ∈ (acquireHandle w (toDWORD processId)).2
        ∨ Call.search true (acquireHandle w (toDWORD processId)).1
          ∈ (acquireHandle w (toDWORD processId)).2 := by
    intro _
    by_cases h0 : (FindPrivilegedHandleToProcess (toDWORD processId)
        w.NtQuerySystemInformation 0).handle = NULL
    · right
      rw [hpm]
      refine ⟨h0, ?_⟩
      rw [hfst, if_pos h0]
    · left
      rw [hdm, hfst, if_neg h0]
  rcases InjectDLL_cases w g dllPath processId with
    ⟨-, hin, -, hc0, ha0⟩ | ⟨pre, hpre, -, hc0, ha0, hB⟩
  · refine ⟨r.trace, [], [], [], NULL, by simp, hc0, ha0, Or.inl rfl, rfl, rfl, Or.inl rfl,
      rfl, fun h => absurd rfl h, ?_, rfl, rfl, rfl, fun h => absurd rfl h⟩
    intro b h hm
    exact absurd hm (search_not_mem_of_inner hin b h)
  · have hpn : ∀ b h, Call.search b h ∉ pre := search_not_mem_of_inner hpre
    have hen : ∀ b h, Call.search b h ∉ enableDebugPrivilege w :=
      search_not_mem_of_inner (enableDebugPrivilege_inner w)
    have hnm := mapWithHandle_no_marker w (acquireHandle w (toDWORD processId)).1
    have harep := acquireHandle_replay w (toDWORD processId)
    rcases hB with ⟨hnull1, -, ht⟩ | ⟨hne, -, ht⟩
    · refine ⟨pre, enableDebugPrivilege w, (acquireHandle w (toDWORD processId)).2, [], NULL,
        by rw [List.append_nil]; exact ht, hc0, ha0, Or.inr rfl,
        enableDebugPrivilege_replay w, htok.1, htok2, ?_, fun h => absurd rfl h, ?_, rfl,
        rfl, rfl, fun h => absurd rfl h⟩
      · rw [harep, hnull1]
      · intro b h hm hh
        have hm2 : Call.search b h ∈ (acquireHandle w (toDWORD processId)).2 := by
          have hm1 : Call.search b h ∈ (InjectDLL w g dllPath processId).trace := hm
          rw [ht] at hm1
          simp only [List.mem_append] at hm1
          rcases hm1 with (h1 | h1) | h1
          · exact absurd h1 (hpn b h)
          · exact absurd h1 (hen b h)
          · exact h1
        rw [hacq b h hm2 hh, hnull1]
    · obtain ⟨hcl, hac, hlast⟩ := mapWithHandle_closes w (acquireHandle w (toDWORD processId)).1
      refine ⟨pre, enableDebugPrivilege w, (acquireHandle w (toDWORD processId)).2,
        (mapWithHandle w (acquireHandle w (toDWORD processId)).1).2,
        (acquireHandle w (toDWORD processId)).1, ht, hc0, ha0, Or.inr rfl,
        enableDebugPrivilege_replay w, htok.1, htok2, harep, hself, ?_, ?_, ?_, hac,
        fun _ => hlast⟩
      · intro b h hm hh
        have hm2 : Call.search b h ∈ (acquireHandle w (toDWORD processId)).2 := by
          have hm1 : Call.search b h ∈ (InjectDLL w g dllPath processId).trace := hm
          rw [ht] at hm1
          simp only [List.mem_append] at hm1
          rcases hm1 with ((h1 | h1) | h1) | h1
          · exact absurd h1 (hpn b h)
          · exact absurd h1 (hen b h)
          · exact h1
          · exact absurd h1 (hnm b h)
        exact hacq b h hm2 hh
      · rw [heldBest_of_ne hne]
        exact mapWithHandle_replay w _
      · rw [heldBest_of_ne hne, hcl]
        rfl

/-- Witness for C10 in `sampleWorld`: the run ends with `CloseHandle` on the
handle `0x10C` returned by the direct search, and no handle is left open. -/
theorem C10_every_handle_released_witness :
    ((⟨false, NULL⟩ : Globals).g_initialized = true →
        (⟨false, NULL⟩ : Globals).g_NtQuerySystemInformation ≠ NULL)
    ∧ (InjectDLL sampleWorld ⟨false, NULL⟩ (some "payload.dll") 42).trace.getLast?
        = some (Call.CloseHandle 0x10C)
    ∧ replay (InjectDLL sampleWorld ⟨false, NULL⟩ (some "payload.dll") 42).trace []
        = some [] :=
  ⟨by decide, by decide,
    (C10_every_handle_released sampleWorld ⟨false, NULL⟩ (some "payload.dll") 42
      (by decide)).1⟩

end FlunderDLL
